import Mathlib

/-!
Verification of the ArtPriv lifecycle transition engine.

This file gives a shallow embedding of the state-machine core of the
repository: the Donor and Bank state machines (`utils/state_machine.py`),
the request handlers that drive them (`api/routes/donor.py`,
`api/routes/bank.py`, `api/routes/auth.py`, `adminside/backend/routes.py`)
and the service predicates (`services/business_logic.py`).

Database rows are Lean structures, tables are lists, and each HTTP handler
is a function `DB -> args -> Except HErr DB` written in the same order as
the Python body: a raised `HTTPException` becomes `.error` and, since the
session is only committed at the end of a successful handler, an erroring
handler leaves the database unchanged.  History tables are append-only
lists; list order is commit order, which is also timestamp order.

The SQLAlchemy session factory (`database.py`) is not among the sources,
so where a handler queries the table it has just modified in the same
request, the visibility of the pending change is modelled from the spec;
the two definitions concerned carry a `Modelled from the spec:` comment.
-/

/-- Donor lifecycle states, from `models/models.py` (`DonorState`). -/
inductive DonorState where
  | visitor
  | bank_selected
  | lead_created
  | account_created
  | counseling_requested
  | consent_pending
  | consent_verified
  | tests_pending
  | eligibility_decision
  | donor_onboarded
deriving DecidableEq, Repr, Fintype

/-- Bank lifecycle states, from `models/models.py` (`BankState`). -/
inductive BankState where
  | unregistered
  | account_created
  | verification_pending
  | verified
  | subscription_pending
  | subscribed_onboarded
  | operational
deriving DecidableEq, Repr, Fintype

/-- Consent record status, from `models/models.py` (`ConsentStatus`). -/
inductive ConsentStatus where
  | pending
  | signed
  | verified
  | rejected
deriving DecidableEq, Repr, Fintype

/-- Eligibility decision status, from `models/models.py` (`EligibilityStatus`). -/
inductive EligibilityStatus where
  | pending
  | approved
  | rejected
deriving DecidableEq, Repr, Fintype

/-- The `.value` string of an `EligibilityStatus`, used in reason strings. -/
def EligibilityStatus.value : EligibilityStatus → String
  | .pending => "pending"
  | .approved => "approved"
  | .rejected => "rejected"

/-- Donor transition graph, from `utils/state_machine.py`
(`DONOR_STATE_TRANSITIONS`). -/
def DONOR_STATE_TRANSITIONS : DonorState → List DonorState
  | .visitor => [.bank_selected]
  | .bank_selected => [.lead_created]
  | .lead_created => [.account_created]
  | .account_created => [.counseling_requested]
  | .counseling_requested => [.consent_pending]
  | .consent_pending => [.consent_verified]
  | .consent_verified => [.tests_pending]
  | .tests_pending => [.eligibility_decision]
  | .eligibility_decision => [.donor_onboarded]
  | .donor_onboarded => []

/-- Bank transition graph, from `utils/state_machine.py`
(`BANK_STATE_TRANSITIONS`).  `unregistered` has no entry in the Python
dict, so its transition list is empty (`dict.get` default). -/
def BANK_STATE_TRANSITIONS : BankState → List BankState
  | .unregistered => []
  | .account_created => [.verification_pending]
  | .verification_pending => [.verified]
  | .verified => [.subscription_pending]
  | .subscription_pending => [.subscribed_onboarded]
  | .subscribed_onboarded => [.operational]
  | .operational => []

/-- `can_transition_donor_state` from `utils/state_machine.py`. -/
def can_transition_donor_state (current_state new_state : DonorState) : Bool :=
  (DONOR_STATE_TRANSITIONS current_state).contains new_state

/-- `can_transition_bank_state` from `utils/state_machine.py`. -/
def can_transition_bank_state (current_state new_state : BankState) : Bool :=
  (BANK_STATE_TRANSITIONS current_state).contains new_state

/-- A row of the `banks` table (`models/models.py`, class `Bank`); only the
columns read or written by the lifecycle engine are modelled.  Timestamps
are abstract ticks (see `DB.now`). -/
structure Bank where
  id : Nat
  email : String
  name : String
  state : BankState
  is_verified : Bool := false
  verified_at : Option Nat := none
  verified_by : Option String := none
  is_subscribed : Bool := false
  subscription_tier : Option String := none
  subscription_started_at : Option Nat := none
  subscription_expires_at : Option Nat := none
  certification_documents : List String := []
  counseling_config : Option (List String) := none
deriving DecidableEq, Repr

/-- A row of the `donors` table (`models/models.py`, class `Donor`); only
the columns read or written by the lifecycle engine are modelled. -/
structure Donor where
  id : Nat
  email : String
  bank_id : Option Nat
  state : DonorState
  hashed_password : Option String := none
  eligibility_status : EligibilityStatus := .pending
  eligibility_notes : Option String := none
deriving DecidableEq, Repr

/-- A row of the `consent_templates` table (`models/models.py`). -/
structure ConsentTemplate where
  id : Nat
  bank_id : Nat
  order : Nat
  is_active : Bool := true
deriving DecidableEq, Repr

/-- A row of the `donor_consents` table (`models/models.py`). -/
structure DonorConsent where
  id : Nat
  donor_id : Nat
  template_id : Nat
  status : ConsentStatus
  verified_by : Option Nat := none
  verification_notes : Option String := none
deriving DecidableEq, Repr

/-- A row of the `donor_state_history` table (`models/models.py`). -/
structure DonorStateHistory where
  donor_id : Nat
  from_state : Option DonorState
  to_state : DonorState
  changed_by : Nat
  changed_by_role : String
  reason : Option String
deriving DecidableEq, Repr

/-- A row of the `bank_state_history` table (`models/models.py`).  Note the
bank history has no role column. -/
structure BankStateHistory where
  bank_id : Nat
  from_state : Option BankState
  to_state : BankState
  changed_by : Nat
  reason : Option String
deriving DecidableEq, Repr

/-- A row of the `test_reports` table, reduced to the fields the engine
reads. -/
structure TestReport where
  donor_id : Nat
  bank_id : Nat
deriving DecidableEq, Repr

/-- A row of the `counseling_sessions` table, reduced to the fields the
engine reads. -/
structure CounselingSession where
  donor_id : Nat
  bank_id : Nat
  method : String
deriving DecidableEq, Repr

/-- The persistent store: one list per table, fresh-id counters standing
for the UUID generator, and an abstract clock for timestamps. -/
structure DB where
  banks : List Bank
  donors : List Donor
  templates : List ConsentTemplate
  consents : List DonorConsent
  donor_history : List DonorStateHistory
  bank_history : List BankStateHistory
  test_reports : List TestReport
  counseling_sessions : List CounselingSession
  nextBankId : Nat
  nextDonorId : Nat
  nextTemplateId : Nat
  nextConsentId : Nat
  now : Nat
deriving DecidableEq, Repr

/-- The empty database. -/
def initDB : DB :=
  { banks := [], donors := [], templates := [], consents := []
  , donor_history := [], bank_history := [], test_reports := []
  , counseling_sessions := []
  , nextBankId := 1, nextDonorId := 1, nextTemplateId := 1, nextConsentId := 1
  , now := 0 }

/-- `db.query(Bank).filter(Bank.id == id).first()`. -/
def DB.findBank (db : DB) (id : Nat) : Option Bank :=
  db.banks.find? (fun b => b.id == id)

/-- `db.query(Donor).filter(Donor.id == id).first()`. -/
def DB.findDonor (db : DB) (id : Nat) : Option Donor :=
  db.donors.find? (fun d => d.id == id)

/-- Write back a mutated bank row (the ORM identity map keyed by primary
key). -/
def DB.updateBank (db : DB) (id : Nat) (b : Bank) : DB :=
  { db with banks := db.banks.map (fun x => if x.id == id then b else x) }

/-- Write back a mutated donor row. -/
def DB.updateDonor (db : DB) (id : Nat) (d : Donor) : DB :=
  { db with donors := db.donors.map (fun x => if x.id == id then d else x) }

/-- An `HTTPException`: status code and detail string. -/
structure HErr where
  status : Nat
  detail : String
deriving DecidableEq, Repr

/-- State of a donor row as seen through a primary-key lookup. -/
def donorStateOf (db : DB) (id : Nat) : Option DonorState :=
  (db.findDonor id).map (fun d => d.state)

/-- State of a bank row as seen through a primary-key lookup. -/
def bankStateOf (db : DB) (id : Nat) : Option BankState :=
  (db.findBank id).map (fun b => b.state)

/-- `transition_donor_state` from `utils/state_machine.py`: validate the
edge, mutate the donor row, append a history row, commit.  The mutated
donor object is returned alongside the store, mirroring the ORM object the
caller keeps using.  An invalid edge raises `ValueError` before any
mutation. -/
def transition_donor_state (db : DB) (donor : Donor) (new_state : DonorState)
    (changed_by : Nat) (changed_by_role : String) (reason : Option String) :
    Except String (DB × Donor) :=
  if can_transition_donor_state donor.state new_state then
    let old_state := donor.state
    let donor := { donor with state := new_state }
    let history : DonorStateHistory :=
      { donor_id := donor.id, from_state := some old_state, to_state := new_state
      , changed_by := changed_by, changed_by_role := changed_by_role, reason := reason }
    .ok ({ db.updateDonor donor.id donor with donor_history := db.donor_history ++ [history] }, donor)
  else
    .error "Invalid state transition"

/-- `transition_bank_state` from `utils/state_machine.py`. -/
def transition_bank_state (db : DB) (bank : Bank) (new_state : BankState)
    (changed_by : Nat) (reason : Option String) :
    Except String (DB × Bank) :=
  if can_transition_bank_state bank.state new_state then
    let old_state := bank.state
    let bank := { bank with state := new_state }
    let history : BankStateHistory :=
      { bank_id := bank.id, from_state := some old_state, to_state := new_state
      , changed_by := changed_by, reason := reason }
    .ok ({ db.updateBank bank.id bank with bank_history := db.bank_history ++ [history] }, bank)
  else
    .error "Invalid state transition"

/-- The store produced by a successful `transition_donor_state`, in
canonical form (used to name intermediate stores in proofs). -/
def donorTransDB (db : DB) (d0 : Donor) (t : DonorState) (cb : Nat)
    (role : String) (r : Option String) : DB :=
  { db.updateDonor d0.id { d0 with state := t } with
    donor_history := db.donor_history ++
      [{ donor_id := d0.id, from_state := some d0.state, to_state := t
       , changed_by := cb, changed_by_role := role, reason := r }] }

/-- The store produced by a successful `transition_bank_state`, in
canonical form. -/
def bankTransDB (db : DB) (b0 : Bank) (t : BankState) (cb : Nat)
    (r : Option String) : DB :=
  { db.updateBank b0.id { b0 with state := t } with
    bank_history := db.bank_history ++
      [{ bank_id := b0.id, from_state := some b0.state, to_state := t
       , changed_by := cb, reason := r }] }

/-- `get_current_bank` from `utils/dependencies.py` (token decoding is out
of scope; an absent row is the 401 "User not found" branch). -/
def get_current_bank (db : DB) (bank_id : Nat) : Except HErr Bank :=
  match db.findBank bank_id with
  | none => .error ⟨401, "User not found"⟩
  | some b => .ok b

/-- `get_verified_bank` from `utils/dependencies.py`. -/
def get_verified_bank (db : DB) (bank_id : Nat) : Except HErr Bank :=
  match get_current_bank db bank_id with
  | .error e => .error e
  | .ok b => if b.is_verified then .ok b else .error ⟨403, "Bank verification required"⟩

/-- `get_subscribed_bank` from `utils/dependencies.py`. -/
def get_subscribed_bank (db : DB) (bank_id : Nat) : Except HErr Bank :=
  match get_verified_bank db bank_id with
  | .error e => .error e
  | .ok b => if b.is_subscribed then .ok b else .error ⟨403, "Active subscription required"⟩

/-- `get_current_donor` from `utils/dependencies.py`. -/
def get_current_donor (db : DB) (donor_id : Nat) : Except HErr Donor :=
  match db.findDonor donor_id with
  | none => .error ⟨401, "User not found"⟩
  | some d => .ok d

/-- `register_bank` from `api/routes/auth.py`: creates the bank row in
state ACCOUNT_CREATED, with no history row.  Password hashing and token
issuance are out of scope. -/
def register_bank (db : DB) (email name : String) : Except HErr DB :=
  if db.banks.any (fun b => b.email == email) then
    .error ⟨400, "Email already registered"⟩
  else
    let bank : Bank := { id := db.nextBankId, email := email, name := name
                       , state := .account_created }
    .ok { db with banks := db.banks ++ [bank], nextBankId := db.nextBankId + 1 }

/-- `upload_certification` from `api/routes/bank.py`: append a document
reference and, if this is the first document (state ACCOUNT_CREATED),
transition to VERIFICATION_PENDING. -/
def upload_certification (db : DB) (bank_id : Nat) (filename : String) : Except HErr DB :=
  match get_current_bank db bank_id with
  | .error e => .error e
  | .ok bank =>
    let bank := { bank with certification_documents := bank.certification_documents ++ [filename] }
    let db := db.updateBank bank.id bank
    if bank.state == BankState.account_created then
      match transition_bank_state db bank .verification_pending bank.id
          (some "Certification documents uploaded") with
      | .error e => .error ⟨500, e⟩
      | .ok (db, _) => .ok db
    else
      .ok db

/-- `create_subscription` from `api/routes/bank.py`: set subscription
fields then issue the three chained transitions
VERIFIED to SUBSCRIPTION_PENDING to SUBSCRIBED_ONBOARDED to OPERATIONAL. -/
def create_subscription (db : DB) (bank_id : Nat) (tier : String) : Except HErr DB :=
  match get_verified_bank db bank_id with
  | .error e => .error e
  | .ok bank =>
    if bank.state != BankState.verified then
      .error ⟨400, "Bank must be verified first"⟩
    else
      let bank := { bank with
                    subscription_tier := some tier,
                    is_subscribed := true,
                    subscription_started_at := some db.now }
      let db := db.updateBank bank.id bank
      match transition_bank_state db bank .subscription_pending bank.id (some "Subscription initiated") with
      | .error e => .error ⟨500, e⟩
      | .ok (db, bank) =>
        match transition_bank_state db bank .subscribed_onboarded bank.id (some "Subscription completed") with
        | .error e => .error ⟨500, e⟩
        | .ok (db, bank) =>
          match transition_bank_state db bank .operational bank.id (some "Bank is now operational") with
          | .error e => .error ⟨500, e⟩
          | .ok (db, _) => .ok db

/-- `create_consent_template_test` from `api/routes/bank.py`: create a
template row after checking the order bound. -/
def create_consent_template (db : DB) (bank_id : Nat) (order : Nat) : Except HErr DB :=
  match get_current_bank db bank_id with
  | .error e => .error e
  | .ok bank =>
    if order < 1 || order > 4 then
      .error ⟨400, "Consent order must be between 1 and 4"⟩
    else
      .ok { db with
        templates := db.templates ++ [{ id := db.nextTemplateId, bank_id := bank.id, order := order }]
      , nextTemplateId := db.nextTemplateId + 1 }

/-- `create_lead` from `api/routes/donor.py`: gate on the bank being
verified and subscribed, create the donor row in state BANK_SELECTED and
immediately transition it to LEAD_CREATED. -/
def create_lead (db : DB) (email : String) (bank_id : Nat) : Except HErr DB :=
  match db.findBank bank_id with
  | none => .error ⟨400, "Invalid or inactive bank"⟩
  | some bank =>
    if !(bank.is_verified && bank.is_subscribed) then
      .error ⟨400, "Invalid or inactive bank"⟩
    else if db.donors.any (fun d => d.email == email) then
      .error ⟨400, "Email already registered"⟩
    else
      let donor : Donor := { id := db.nextDonorId, email := email
                           , bank_id := some bank.id, state := .bank_selected }
      let db := { db with donors := db.donors ++ [donor], nextDonorId := db.nextDonorId + 1 }
      match transition_donor_state db donor .lead_created donor.id "donor"
          (some "Lead created with bank selection") with
      | .error e => .error ⟨500, e⟩
      | .ok (db, _) => .ok db

/-- `create_account` from `api/routes/donor.py`: find the lead by email,
require state LEAD_CREATED, set credentials, transition to
ACCOUNT_CREATED.  The password hash is abstracted as the raw string. -/
def create_account (db : DB) (email password : String) : Except HErr DB :=
  match db.donors.find? (fun d => d.email == email) with
  | none => .error ⟨404, "Lead not found. Please create a lead first."⟩
  | some donor =>
    if donor.state != DonorState.lead_created then
      .error ⟨400, "Account already created or invalid state"⟩
    else
      let donor := { donor with hashed_password := some password }
      let db := db.updateDonor donor.id donor
      match transition_donor_state db donor .account_created donor.id "donor"
          (some "Account created with credentials") with
      | .error e => .error ⟨500, e⟩
      | .ok (db, _) => .ok db

/-- `request_counseling` from `api/routes/donor.py`.  A donor whose
`bank_id` points at a missing bank would make the Python handler crash
with an `AttributeError` (HTTP 500); that branch is the 500 case here. -/
def request_counseling (db : DB) (donor_id : Nat) (method : String) : Except HErr DB :=
  match get_current_donor db donor_id with
  | .error e => .error e
  | .ok donor =>
    if donor.state != DonorState.account_created then
      .error ⟨400, "Invalid state for counseling request"⟩
    else
      match donor.bank_id with
      | none => .error ⟨400, "No bank associated"⟩
      | some bid =>
        match db.findBank bid with
        | none => .error ⟨500, "AttributeError"⟩
        | some bank =>
          let methodOk : Bool :=
            match bank.counseling_config with
            | none => true
            | some allowed_methods => allowed_methods.contains method
          if !methodOk then
            .error ⟨400, "Counseling method not supported by bank"⟩
          else
            let db := { db with counseling_sessions :=
              db.counseling_sessions ++ [{ donor_id := donor.id, bank_id := bid, method := method }] }
            match transition_donor_state db donor .counseling_requested donor.id "donor"
                (some "Counseling requested") with
            | .error e => .error ⟨500, e⟩
            | .ok (db, _) => .ok db

/-- Modelled from the spec: `database.py` (the SQLAlchemy session factory)
is not among the sources, so whether the consent row just added by
`sign_consent` is visible to the count query issued before the commit is
unknown.  Spec section 4.3 states the COUNSELING_REQUESTED to
CONSENT_PENDING edge fires the first time a consent is signed, the count
of signed consents transitioning 0 to 1; so the count taken inside
`sign_consent` is modelled over the table as it stood before the insert. -/
def signed_consents_count (consents : List DonorConsent) (donor_id : Nat) : Nat :=
  (consents.filter (fun c => c.donor_id == donor_id && c.status == ConsentStatus.signed)).length

/-- `sign_consent` from `api/routes/donor.py`: state gate, template
lookup scoped to the donor bank, duplicate check, insert of a SIGNED
consent, then the first-signature transition. -/
def sign_consent (db : DB) (donor_id : Nat) (template_id : Nat) : Except HErr DB :=
  match get_current_donor db donor_id with
  | .error e => .error e
  | .ok donor =>
    if !(donor.state == DonorState.consent_pending
        || donor.state == DonorState.counseling_requested
        || donor.state == DonorState.account_created) then
      .error ⟨400, "Cannot sign consents in current state"⟩
    else
      match db.templates.find? (fun t => t.id == template_id && some t.bank_id == donor.bank_id) with
      | none => .error ⟨404, "Consent template not found"⟩
      | some _template =>
        match db.consents.find? (fun c => c.donor_id == donor.id && c.template_id == template_id) with
        | some _ => .error ⟨400, "Consent already signed"⟩
        | none =>
          let consent : DonorConsent :=
            { id := db.nextConsentId, donor_id := donor.id
            , template_id := template_id, status := .signed }
          let total_consents := signed_consents_count db.consents donor.id
          let db := { db with
                      consents := db.consents ++ [consent],
                      nextConsentId := db.nextConsentId + 1 }
          if donor.state == DonorState.counseling_requested && total_consents == 0 then
            match transition_donor_state db donor .consent_pending donor.id "donor"
                (some "Started signing consent forms") with
            | .error e => .error ⟨500, e⟩
            | .ok (db, _) => .ok db
          else
            .ok db

/-- Count of all consent rows of a donor, as queried by `verify_consent`. -/
def consents_total_count (consents : List DonorConsent) (donor_id : Nat) : Nat :=
  (consents.filter (fun c => c.donor_id == donor_id)).length

/-- Modelled from the spec: with `database.py` absent, whether the status
update recorded by `verify_consent` is visible to the two count queries of
the same request is unknown.  Spec sections 4.4 and 8 state the 4th
verification, bringing verified consents to 4, triggers the auto-advance
in the same call; so the counts are modelled over the table with the
status update applied. -/
def verified_consents_count (consents : List DonorConsent) (donor_id : Nat) : Nat :=
  (consents.filter (fun c => c.donor_id == donor_id && c.status == ConsentStatus.verified)).length

/-- `verify_consent` from `api/routes/bank.py`: record the verification on
the consent row, then auto-advance the donor to CONSENT_VERIFIED when the
quorum (total at least 4 and verified at least 4) is met and the donor is
in CONSENT_PENDING. -/
def verify_consent (db : DB) (bank_id : Nat) (consent_id : Nat)
    (vstatus : ConsentStatus) (notes : Option String) : Except HErr DB :=
  match get_subscribed_bank db bank_id with
  | .error e => .error e
  | .ok bank =>
    match db.consents.find? (fun c => c.id == consent_id) with
    | none => .error ⟨404, "Consent not found"⟩
    | some consent =>
      match db.donors.find? (fun d => d.id == consent.donor_id && d.bank_id == some bank.id) with
      | none => .error ⟨403, "Not authorized to verify this consent"⟩
      | some donor =>
        let consent := { consent with
                         status := vstatus,
                         verified_by := some bank.id,
                         verification_notes := notes }
        let db := { db with consents := db.consents.map (fun c => if c.id == consent_id then consent else c) }
        let total_consents := consents_total_count db.consents donor.id
        let verified_consents := verified_consents_count db.consents donor.id
        if total_consents ≥ 4 && verified_consents ≥ 4 then
          if donor.state == DonorState.consent_pending then
            match transition_donor_state db donor .consent_verified bank.id "bank"
                (some "All consents verified by bank") with
            | .error e => .error ⟨500, e⟩
            | .ok (db, _) => .ok db
          else
            .ok db
        else
          .ok db

/-- `upload_test_report` from `api/routes/bank.py`: the donor lookup is
scoped to the acting bank (an ownership mismatch falls into the 404
branch), the state gate admits CONSENT_VERIFIED and TESTS_PENDING, and the
first upload transitions the donor to TESTS_PENDING. -/
def upload_test_report (db : DB) (bank_id : Nat) (donor_id : Nat) : Except HErr DB :=
  match get_subscribed_bank db bank_id with
  | .error e => .error e
  | .ok bank =>
    match db.donors.find? (fun d => d.id == donor_id && d.bank_id == some bank.id) with
    | none => .error ⟨404, "Donor not found"⟩
    | some donor =>
      if !(donor.state == DonorState.consent_verified || donor.state == DonorState.tests_pending) then
        .error ⟨400, "Cannot upload tests for donor in state"⟩
      else
        let db := { db with test_reports := db.test_reports ++ [{ donor_id := donor.id, bank_id := bank.id }] }
        if donor.state == DonorState.consent_verified then
          match transition_donor_state db donor .tests_pending bank.id "bank"
              (some "Test report uploaded by bank") with
          | .error e => .error ⟨500, e⟩
          | .ok (db, _) => .ok db
        else
          .ok db

/-- `make_eligibility_decision` from `api/routes/bank.py`: donor lookup
scoped to the acting bank, TESTS_PENDING gate, record of the decision,
transition to ELIGIBILITY_DECISION, then to DONOR_ONBOARDED when the
recorded status is approved. -/
def make_eligibility_decision (db : DB) (bank_id : Nat) (donor_id : Nat)
    (status : EligibilityStatus) (notes : Option String) : Except HErr DB :=
  match get_subscribed_bank db bank_id with
  | .error e => .error e
  | .ok bank =>
    match db.donors.find? (fun d => d.id == donor_id && d.bank_id == some bank.id) with
    | none => .error ⟨404, "Donor not found"⟩
    | some donor =>
      if donor.state != DonorState.tests_pending then
        .error ⟨400, "Donor must be in tests_pending state"⟩
      else
        let donor := { donor with eligibility_status := status, eligibility_notes := notes }
        let db := db.updateDonor donor.id donor
        match transition_donor_state db donor .eligibility_decision bank.id "bank"
            (some ("Eligibility decision: " ++ status.value)) with
        | .error e => .error ⟨500, e⟩
        | .ok (db, donor) =>
          if status == EligibilityStatus.approved then
            match transition_donor_state db donor .donor_onboarded bank.id "bank"
                (some "Donor approved and onboarded") with
            | .error e => .error ⟨500, e⟩
            | .ok (db, _) => .ok db
          else
            .ok db

/-- `verify_bank` from `adminside/backend/routes.py`: reject an already
verified bank, set the verification fields, and advance `state` only when
it is exactly VERIFICATION_PENDING.  The adminside subsystem mutates
`state` directly and writes no history row.  (The adminside duplicates the
entity definitions over the same tables; they are consolidated here.) -/
def admin_verify_bank (db : DB) (bank_id : Nat) (verified_by : String) : Except HErr DB :=
  match db.findBank bank_id with
  | none => .error ⟨404, "Bank not found"⟩
  | some bank =>
    if bank.is_verified then
      .error ⟨400, "Bank is already verified"⟩
    else
      let bank := { bank with
                    is_verified := true,
                    verified_at := some db.now,
                    verified_by := some verified_by }
      let bank := if bank.state == BankState.verification_pending
                  then { bank with state := BankState.verified } else bank
      .ok (db.updateBank bank_id bank)

/-- `update_bank_subscription` from `adminside/backend/routes.py`: set
subscription fields and jump `state` to SUBSCRIBED_ONBOARDED whenever it
is VERIFIED or SUBSCRIPTION_PENDING, directly and with no history row. -/
def admin_update_bank_subscription (db : DB) (bank_id : Nat) (tier : String)
    (started expires : Nat) : Except HErr DB :=
  match db.findBank bank_id with
  | none => .error ⟨404, "Bank not found"⟩
  | some bank =>
    if !bank.is_verified then
      .error ⟨400, "Bank must be verified first"⟩
    else
      let bank := { bank with
                    is_subscribed := true,
                    subscription_tier := some tier,
                    subscription_started_at := some started,
                    subscription_expires_at := some expires }
      let bank := if bank.state == BankState.verified || bank.state == BankState.subscription_pending
                  then { bank with state := BankState.subscribed_onboarded } else bank
      .ok (db.updateBank bank_id bank)

/-- One request against the system: every handler that can read or write
an entity state, with its arguments. -/
inductive Op where
  | registerBank (email name : String)
  | uploadCertification (bank_id : Nat) (filename : String)
  | createSubscription (bank_id : Nat) (tier : String)
  | createConsentTemplate (bank_id : Nat) (order : Nat)
  | createLead (email : String) (bank_id : Nat)
  | createAccount (email password : String)
  | requestCounseling (donor_id : Nat) (method : String)
  | signConsent (donor_id : Nat) (template_id : Nat)
  | verifyConsent (bank_id : Nat) (consent_id : Nat) (vstatus : ConsentStatus) (notes : Option String)
  | uploadTestReport (bank_id : Nat) (donor_id : Nat)
  | makeEligibilityDecision (bank_id : Nat) (donor_id : Nat) (status : EligibilityStatus) (notes : Option String)
  | adminVerifyBank (bank_id : Nat) (verified_by : String)
  | adminUpdateSubscription (bank_id : Nat) (tier : String) (started expires : Nat)
deriving DecidableEq, Repr

/-- Dispatch a request to its handler. -/
def opResult (db : DB) : Op → Except HErr DB
  | .registerBank e n => register_bank db e n
  | .uploadCertification b f => upload_certification db b f
  | .createSubscription b t => create_subscription db b t
  | .createConsentTemplate b o => create_consent_template db b o
  | .createLead e b => create_lead db e b
  | .createAccount e p => create_account db e p
  | .requestCounseling d m => request_counseling db d m
  | .signConsent d t => sign_consent db d t
  | .verifyConsent b c s n => verify_consent db b c s n
  | .uploadTestReport b d => upload_test_report db b d
  | .makeEligibilityDecision b d s n => make_eligibility_decision db b d s n
  | .adminVerifyBank b v => admin_verify_bank db b v
  | .adminUpdateSubscription b t s e => admin_update_bank_subscription db b t s e

/-- Commit semantics of one request: a raised `HTTPException` reaches the
transport before any commit, so the store is unchanged on error. -/
def applyOp (db : DB) (op : Op) : DB :=
  match opResult db op with
  | .ok db' => db'
  | .error _ => db

/-- Run a sequence of requests. -/
def runOps (db : DB) (ops : List Op) : DB :=
  ops.foldl applyOp db

/-- `DonorService.can_sign_consent` from `services/business_logic.py`. -/
def can_sign_consent (donor : Donor) : Bool :=
  donor.state == DonorState.counseling_requested || donor.state == DonorState.consent_pending

/-- History rows of one donor, in commit (= timestamp) order. -/
def donorHistoryFor (db : DB) (did : Nat) : List DonorStateHistory :=
  db.donor_history.filter (fun h => h.donor_id == did)

/-- History rows of one bank, in commit (= timestamp) order. -/
def bankHistoryFor (db : DB) (bid : Nat) : List BankStateHistory :=
  db.bank_history.filter (fun h => h.bank_id == bid)

/-- The history list forms a chain starting at `s`: entry 0 has
`from_state = some s` and each entry starts where the previous one ended. -/
def donorChainFrom : DonorState → List DonorStateHistory → Bool
  | _, [] => true
  | s, h :: t => (h.from_state == some s) && donorChainFrom h.to_state t

/-- The state at the end of a history chain that started at `s`. -/
def donorChainEnd : DonorState → List DonorStateHistory → DonorState
  | s, [] => s
  | _, h :: t => donorChainEnd h.to_state t

/-- Consecutive-link check alone (entry i `to_state` = entry i+1
`from_state`), the form used in spec section 8. -/
def bankConsecChain : List BankStateHistory → Bool
  | [] => true
  | [_] => true
  | h₁ :: h₂ :: t => (some h₁.to_state == h₂.from_state) && bankConsecChain (h₂ :: t)

/-- A donor history row records a legal graph edge. -/
def donorEdgeRow (h : DonorStateHistory) : Bool :=
  match h.from_state with
  | some s => can_transition_donor_state s h.to_state
  | none => false

/-- A bank history row records a legal graph edge. -/
def bankEdgeRow (h : BankStateHistory) : Bool :=
  match h.from_state with
  | some s => can_transition_bank_state s h.to_state
  | none => false

/-- Position of a donor state along the fixed linear chain. -/
def donorIdx : DonorState → Nat
  | .visitor => 0
  | .bank_selected => 1
  | .lead_created => 2
  | .account_created => 3
  | .counseling_requested => 4
  | .consent_pending => 5
  | .consent_verified => 6
  | .tests_pending => 7
  | .eligibility_decision => 8
  | .donor_onboarded => 9

/-- Position of a bank state along the fixed linear chain. -/
def bankIdx : BankState → Nat
  | .unregistered => 0
  | .account_created => 1
  | .verification_pending => 2
  | .verified => 3
  | .subscription_pending => 4
  | .subscribed_onboarded => 5
  | .operational => 6

/-! ### Effect predicates

Each handler changes the donor-side columns (`donors`, `donor_history`,
`nextDonorId`) in one of four primitive ways, and the bank-side columns
(`banks`, `bank_history`, `nextBankId`) in one of five; the invariant and
monotonicity proofs go through these predicates. -/

/-- The request left the donor-side columns untouched. -/
def donorsUnchanged (db db' : DB) : Prop :=
  db'.donors = db.donors ∧ db'.donor_history = db.donor_history ∧
  db'.nextDonorId = db.nextDonorId

/-- The request inserted a fresh donor row (state BANK_SELECTED, no
history). -/
def donorCreated (db db' : DB) (d : Donor) : Prop :=
  d.id = db.nextDonorId ∧ d.state = DonorState.bank_selected ∧
  db'.donors = db.donors ++ [d] ∧ db'.donor_history = db.donor_history ∧
  db'.nextDonorId = db.nextDonorId + 1

/-- The request rewrote non-state columns of one donor row. -/
def donorFieldsUpdated (db db' : DB) (d0 d1 : Donor) : Prop :=
  d0 ∈ db.donors ∧ d1.id = d0.id ∧ d1.state = d0.state ∧
  db'.donors = db.donors.map (fun x => if x.id == d0.id then d1 else x) ∧
  db'.donor_history = db.donor_history ∧ db'.nextDonorId = db.nextDonorId

/-- The request moved one donor row along a legal edge through
`transition_donor_state`, appending the matching history row. -/
def donorTransitioned (db db' : DB) (d0 : Donor) (t : DonorState)
    (cb : Nat) (role : String) (r : Option String) : Prop :=
  d0 ∈ db.donors ∧ can_transition_donor_state d0.state t = true ∧
  db'.donors = db.donors.map (fun x => if x.id == d0.id then { d0 with state := t } else x) ∧
  db'.donor_history = db.donor_history ++
    [{ donor_id := d0.id, from_state := some d0.state, to_state := t
     , changed_by := cb, changed_by_role := role, reason := r }] ∧
  db'.nextDonorId = db.nextDonorId

/-- The request left the bank-side columns untouched. -/
def banksUnchanged (db db' : DB) : Prop :=
  db'.banks = db.banks ∧ db'.bank_history = db.bank_history ∧
  db'.nextBankId = db.nextBankId

/-- The request inserted a fresh bank row (state ACCOUNT_CREATED, no
history). -/
def bankCreated (db db' : DB) (b : Bank) : Prop :=
  b.id = db.nextBankId ∧ b.state = BankState.account_created ∧
  db'.banks = db.banks ++ [b] ∧ db'.bank_history = db.bank_history ∧
  db'.nextBankId = db.nextBankId + 1

/-- The request rewrote non-state columns of one bank row. -/
def bankFieldsUpdated (db db' : DB) (b0 b1 : Bank) : Prop :=
  db.findBank b0.id = some b0 ∧ b1.id = b0.id ∧ b1.state = b0.state ∧
  db'.banks = db.banks.map (fun x => if x.id == b0.id then b1 else x) ∧
  db'.bank_history = db.bank_history ∧ db'.nextBankId = db.nextBankId

/-- The request moved one bank row along a legal edge through
`transition_bank_state`, appending the matching history row. -/
def bankTransitioned (db db' : DB) (b0 : Bank) (t : BankState)
    (cb : Nat) (r : Option String) : Prop :=
  db.findBank b0.id = some b0 ∧ can_transition_bank_state b0.state t = true ∧
  db'.banks = db.banks.map (fun x => if x.id == b0.id then { b0 with state := t } else x) ∧
  db'.bank_history = db.bank_history ++
    [{ bank_id := b0.id, from_state := some b0.state, to_state := t
     , changed_by := cb, reason := r }] ∧
  db'.nextBankId = db.nextBankId

/-- The adminside wrote a bank row directly: `state` may jump forward
along the chain order, and no history row is appended.  This is the shape
of `admin_verify_bank` and `admin_update_bank_subscription`. -/
def bankDirectSet (db db' : DB) (b0 b1 : Bank) : Prop :=
  db.findBank b0.id = some b0 ∧ b1.id = b0.id ∧
  bankIdx b0.state ≤ bankIdx b1.state ∧
  db'.banks = db.banks.map (fun x => if x.id == b0.id then b1 else x) ∧
  db'.bank_history = db.bank_history ∧ db'.nextBankId = db.nextBankId

/-- Donor-side store invariant: fresh ids below the counter, distinct
primary keys, and per-donor history forming a chain from BANK_SELECTED
(the state at row creation) whose end is the stored state, every row a
legal edge. -/
structure DonorInv (db : DB) : Prop where
  id_lt : ∀ d ∈ db.donors, d.id < db.nextDonorId
  hist_lt : ∀ h ∈ db.donor_history, h.donor_id < db.nextDonorId
  ids_distinct : db.donors.Pairwise (fun a b => a.id ≠ b.id)
  chain : ∀ d ∈ db.donors,
    donorChainFrom DonorState.bank_selected (donorHistoryFor db d.id) = true
  final : ∀ d ∈ db.donors,
    d.state = donorChainEnd DonorState.bank_selected (donorHistoryFor db d.id)
  edges : ∀ h ∈ db.donor_history, donorEdgeRow h = true

/-- Bank-side store invariant. -/
structure BankInv (db : DB) : Prop where
  id_lt : ∀ b ∈ db.banks, b.id < db.nextBankId
  edges : ∀ h ∈ db.bank_history, bankEdgeRow h = true

/-! ### Concrete stores and runs used in witnesses and counterexamples -/

/-- Register a bank, upload certification, admin-verify, subscribe. -/
def opsBankAdmin : List Op :=
  [ Op.registerBank "bank@example.com" "Bank B"
  , Op.uploadCertification 1 "cert.pdf"
  , Op.adminVerifyBank 1 "admin-1"
  , Op.createSubscription 1 "gold" ]

/-- The first three steps of `opsBankAdmin` only. -/
def opsBankPreJump : List Op :=
  [ Op.registerBank "bank@example.com" "Bank B"
  , Op.uploadCertification 1 "cert.pdf"
  , Op.adminVerifyBank 1 "admin-1" ]

/-- Register a bank and upload certification only. -/
def opsCertOnly : List Op :=
  [ Op.registerBank "bank@example.com" "Bank B"
  , Op.uploadCertification 1 "cert.pdf" ]

/-- A full bank onboarding followed by a donor lead creation. -/
def opsLeadFlow : List Op :=
  opsBankAdmin ++ [Op.createLead "donor@example.com" 1]

/-- An operational, verified and subscribed bank with id 1. -/
def bankFixture : Bank :=
  { id := 1, email := "bank@example.com", name := "Bank B"
  , state := BankState.operational, is_verified := true, is_subscribed := true }

/-- A second operational bank with id 2. -/
def bankFixture2 : Bank :=
  { id := 2, email := "bank2@example.com", name := "Bank C"
  , state := BankState.operational, is_verified := true, is_subscribed := true }

/-- A donor with id 1 owned by bank 1, in the given state. -/
def donorFixture (s : DonorState) : Donor :=
  { id := 1, email := "donor@example.com", bank_id := some 1, state := s }

/-- A consent row of donor 1 for template `k`. -/
def consentFixture (k : Nat) (st : ConsentStatus) : DonorConsent :=
  { id := k, donor_id := 1, template_id := k, status := st }

/-- Donor 1 in CONSENT_PENDING with three verified consents and a fourth
signed one: the store just before the fourth verification. -/
def dbQuorum : DB :=
  { initDB with
    banks := [bankFixture]
  , donors := [donorFixture DonorState.consent_pending]
  , consents := [consentFixture 1 ConsentStatus.verified,
                 consentFixture 2 ConsentStatus.verified,
                 consentFixture 3 ConsentStatus.verified,
                 consentFixture 4 ConsentStatus.signed] }

/-- The store after the fourth verification against `dbQuorum`. -/
def dbQuorumPost : DB :=
  (verify_consent dbQuorum 1 4 ConsentStatus.verified none).toOption.getD initDB

/-- Donor 1 in COUNSELING_REQUESTED with no consents yet. -/
def dbSignFirst : DB :=
  { initDB with
    banks := [bankFixture]
  , donors := [donorFixture DonorState.counseling_requested]
  , templates := [{ id := 1, bank_id := 1, order := 1 }] }

/-- The store after donor 1 signs the first consent against `dbSignFirst`. -/
def dbSignFirstPost : DB :=
  (sign_consent dbSignFirst 1 1).toOption.getD initDB

/-- Donor 1 still in ACCOUNT_CREATED, with a template available. -/
def dbSignAccount : DB :=
  { initDB with
    banks := [bankFixture]
  , donors := [donorFixture DonorState.account_created]
  , templates := [{ id := 1, bank_id := 1, order := 1 }] }

/-- Donor 1 owned by bank 2, with bank 1 also present: the ownership
mismatch scenario for bank-1 requests. -/
def dbMismatch : DB :=
  { initDB with
    banks := [bankFixture, bankFixture2]
  , donors := [{ id := 1, email := "donor@example.com", bank_id := some 2
               , state := DonorState.consent_verified }]
  , consents := [consentFixture 1 ConsentStatus.signed] }

/-- Donor 1 in TESTS_PENDING, ready for the eligibility decision. -/
def dbTests : DB :=
  { initDB with
    banks := [bankFixture]
  , donors := [donorFixture DonorState.tests_pending] }

/-- The whole happy path from bank registration to a rejected eligibility
decision, run against the empty store. -/
def opsFullFlow : List Op :=
  opsBankAdmin ++
  [ Op.createConsentTemplate 1 1
  , Op.createConsentTemplate 1 2
  , Op.createConsentTemplate 1 3
  , Op.createConsentTemplate 1 4
  , Op.createLead "donor@example.com" 1
  , Op.createAccount "donor@example.com" "pw"
  , Op.requestCounseling 1 "video"
  , Op.signConsent 1 1
  , Op.signConsent 1 2
  , Op.signConsent 1 3
  , Op.signConsent 1 4
  , Op.verifyConsent 1 1 ConsentStatus.verified none
  , Op.verifyConsent 1 2 ConsentStatus.verified none
  , Op.verifyConsent 1 3 ConsentStatus.verified none
  , Op.verifyConsent 1 4 ConsentStatus.verified none
  , Op.uploadTestReport 1 1
  , Op.makeEligibilityDecision 1 1 EligibilityStatus.rejected none ]

/-- Relation between stores across one committed request, donor side:
every donor still exists, its chain position never decreases, and a donor
parked in ELIGIBILITY_DECISION stays there. -/
def DonorStepOK (db db' : DB) : Prop :=
  ∀ i s, donorStateOf db i = some s →
    ∃ s', donorStateOf db' i = some s' ∧ donorIdx s ≤ donorIdx s' ∧
      (s = DonorState.eligibility_decision → s' = DonorState.eligibility_decision)

/-- Relation between stores across one committed request, bank side. -/
def BankStepOK (db db' : DB) : Prop :=
  ∀ i s, bankStateOf db i = some s →
    ∃ s', bankStateOf db' i = some s' ∧ bankIdx s ≤ bankIdx s'

lemma donor_edge_idx : ∀ s t : DonorState,
    can_transition_donor_state s t = true → donorIdx t = donorIdx s + 1 := by decide

lemma bank_edge_idx : ∀ s t : BankState,
    can_transition_bank_state s t = true → bankIdx t = bankIdx s + 1 := by decide

lemma donorChainFrom_append (s : DonorState) (l : List DonorStateHistory) (h : DonorStateHistory) :
    donorChainFrom s (l ++ [h])
      = (donorChainFrom s l && (h.from_state == some (donorChainEnd s l))) := by
  induction l generalizing s with
  | nil => simp [donorChainFrom, donorChainEnd]
  | cons x t ih => simp [donorChainFrom, donorChainEnd, ih, Bool.and_assoc]

lemma donorChainEnd_append (s : DonorState) (l : List DonorStateHistory) (h : DonorStateHistory) :
    donorChainEnd s (l ++ [h]) = h.to_state := by
  induction l generalizing s with
  | nil => rfl
  | cons x t ih => simp [donorChainEnd, ih]

lemma find?_map_update {α : Type} (idf : α → Nat) (l : List α) (d1 : α) (k : Nat)
    (hid : idf d1 = k) (i : Nat) :
    (l.map (fun x => if idf x == k then d1 else x)).find? (fun x => idf x == i)
      = (l.find? (fun x => idf x == i)).map (fun x => if idf x == k then d1 else x) := by
  have hfid : ∀ x : α, idf (if idf x == k then d1 else x) = idf x := by
    intro x
    by_cases hx : idf x = k
    · have hc : (idf x == k) = true := by simp [hx]
      rw [if_pos hc, hid, hx]
    · have hc : ¬((idf x == k) = true) := by simp [hx]
      rw [if_neg hc]
  induction l with
  | nil => rfl
  | cons a t ih =>
    by_cases hai : idf a = i
    · have h1 : (idf (if idf a == k then d1 else a) == i) = true := by
        rw [hfid a]; simp [hai]
      have h2 : (idf a == i) = true := by simp [hai]
      simp only [List.map_cons, List.find?_cons, h1, h2, Option.map_some']
    · have h1 : (idf (if idf a == k then d1 else a) == i) = false := by
        rw [hfid a]; simp [hai]
      have h2 : (idf a == i) = false := by simp [hai]
      simp only [List.map_cons, List.find?_cons, h1, h2, ih]

lemma find?_mem_distinct {α : Type} (idf : α → Nat) (l : List α)
    (hl : l.Pairwise (fun a b => idf a ≠ idf b)) (d : α) (hd : d ∈ l) :
    l.find? (fun x => idf x == idf d) = some d := by
  induction l with
  | nil => cases hd
  | cons a t ih =>
    rcases List.mem_cons.mp hd with rfl | hdt
    · have h2 : (idf d == idf d) = true := by simp
      simp only [List.find?_cons, h2]
    · have ha : idf a ≠ idf d := (List.pairwise_cons.mp hl).1 d hdt
      have h2 : (idf a == idf d) = false := by
        simp only [beq_eq_false_iff_ne, ne_eq]; exact ha
      simp only [List.find?_cons, h2]
      exact ih (List.pairwise_cons.mp hl).2 hdt

lemma find?_append_left {α : Type} (l₁ l₂ : List α) (p : α → Bool) (a : α)
    (h : l₁.find? p = some a) : (l₁ ++ l₂).find? p = some a := by
  rw [List.find?_append, h]; rfl

lemma pairwise_ids_map {α : Type} (idf : α → Nat) (l : List α) (f : α → α)
    (hf : ∀ x, idf (f x) = idf x)
    (h : l.Pairwise (fun a b => idf a ≠ idf b)) :
    (l.map f).Pairwise (fun a b => idf a ≠ idf b) := by
  rw [List.pairwise_map]
  exact h.imp (by intro a b hab; simpa [hf] using hab)

lemma donorHistoryFor_of_eq (db db' : DB) (h : db'.donor_history = db.donor_history) (i : Nat) :
    donorHistoryFor db' i = donorHistoryFor db i := by
  simp [donorHistoryFor, h]

lemma donorHistoryFor_of_append (db db' : DB) (row : DonorStateHistory)
    (h : db'.donor_history = db.donor_history ++ [row]) (i : Nat) :
    donorHistoryFor db' i
      = donorHistoryFor db i ++ (if row.donor_id == i then [row] else []) := by
  by_cases hr : row.donor_id = i
  · simp [donorHistoryFor, h, List.filter_append, List.filter_cons, hr]
  · simp [donorHistoryFor, h, List.filter_append, List.filter_cons, hr]

lemma mem_distinct_id_eq {α : Type} (idf : α → Nat) (l : List α)
    (hl : l.Pairwise (fun a b => idf a ≠ idf b)) (a b : α)
    (ha : a ∈ l) (hb : b ∈ l) (hab : idf a = idf b) : a = b := by
  have h1 := find?_mem_distinct idf l hl a ha
  have h2 := find?_mem_distinct idf l hl b hb
  rw [hab] at h1
  rw [h1] at h2
  exact Option.some_injective _ h2

lemma donorInv_unchanged {db db' : DB} (h : donorsUnchanged db db')
    (inv : DonorInv db) : DonorInv db' := by
  obtain ⟨hd, hh, hn⟩ := h
  constructor
  · intro d hdm; rw [hd] at hdm; rw [hn]; exact inv.id_lt d hdm
  · intro x hx; rw [hh] at hx; rw [hn]; exact inv.hist_lt x hx
  · rw [hd]; exact inv.ids_distinct
  · intro d hdm; rw [hd] at hdm
    rw [donorHistoryFor_of_eq db db' hh]; exact inv.chain d hdm
  · intro d hdm; rw [hd] at hdm
    rw [donorHistoryFor_of_eq db db' hh]; exact inv.final d hdm
  · intro x hx; rw [hh] at hx; exact inv.edges x hx

lemma donorInv_created {db db' : DB} {d : Donor} (h : donorCreated db db' d)
    (inv : DonorInv db) : DonorInv db' := by
  obtain ⟨hid, hst, hd, hh, hn⟩ := h
  have hfresh : donorHistoryFor db d.id = [] := by
    unfold donorHistoryFor
    rw [List.filter_eq_nil_iff]
    intro x hx
    have hlt := inv.hist_lt x hx
    simp only [beq_iff_eq]
    omega
  constructor
  · intro x hx; rw [hd] at hx; rw [hn]
    rcases List.mem_append.mp hx with hx | hx
    · exact Nat.lt_succ_of_lt (inv.id_lt x hx)
    · rw [List.mem_singleton] at hx; subst hx; omega
  · intro x hx; rw [hh] at hx; rw [hn]
    exact Nat.lt_succ_of_lt (inv.hist_lt x hx)
  · rw [hd]
    refine List.pairwise_append.mpr ⟨inv.ids_distinct, List.pairwise_singleton _ _, ?_⟩
    intro a ha b hb
    rw [List.mem_singleton] at hb; subst hb
    have := inv.id_lt a ha
    omega
  · intro x hx; rw [hd] at hx
    rcases List.mem_append.mp hx with hx | hx
    · rw [donorHistoryFor_of_eq db db' hh]; exact inv.chain x hx
    · rw [List.mem_singleton] at hx; subst hx
      rw [donorHistoryFor_of_eq db db' hh, hfresh]
      rfl
  · intro x hx; rw [hd] at hx
    rcases List.mem_append.mp hx with hx | hx
    · rw [donorHistoryFor_of_eq db db' hh]; exact inv.final x hx
    · rw [List.mem_singleton] at hx; subst hx
      rw [donorHistoryFor_of_eq db db' hh, hfresh, hst]
      rfl
  · intro x hx; rw [hh] at hx; exact inv.edges x hx

lemma donorInv_updated {db db' : DB} {d0 d1 : Donor} (h : donorFieldsUpdated db db' d0 d1)
    (inv : DonorInv db) : DonorInv db' := by
  obtain ⟨hmem, hid, hst, hd, hh, hn⟩ := h
  have hcase : ∀ y : Donor, (if y.id == d0.id then d1 else y) = d1 ∨
      (if y.id == d0.id then d1 else y) = y := by
    intro y
    by_cases hc : y.id = d0.id
    · left; simp [hc]
    · right; simp [hc]
  constructor
  · intro x hx; rw [hd] at hx; rw [hn]
    obtain ⟨y, hy, rfl⟩ := List.mem_map.mp hx
    rcases hcase y with he | he <;> rw [he]
    · rw [hid]; exact inv.id_lt d0 hmem
    · exact inv.id_lt y hy
  · intro x hx; rw [hh] at hx; rw [hn]; exact inv.hist_lt x hx
  · rw [hd]
    refine pairwise_ids_map (fun x => x.id) db.donors _ ?_ inv.ids_distinct
    intro x
    by_cases hc : x.id = d0.id
    · simp [hc, hid]
    · simp [hc]
  · intro x hx; rw [hd] at hx
    obtain ⟨y, hy, rfl⟩ := List.mem_map.mp hx
    rw [donorHistoryFor_of_eq db db' hh]
    by_cases hc : y.id = d0.id
    · have he : (if y.id == d0.id then d1 else y) = d1 := by simp [hc]
      rw [he, hid]
      exact inv.chain d0 hmem
    · have he : (if y.id == d0.id then d1 else y) = y := by simp [hc]
      rw [he]
      exact inv.chain y hy
  · intro x hx; rw [hd] at hx
    obtain ⟨y, hy, rfl⟩ := List.mem_map.mp hx
    rw [donorHistoryFor_of_eq db db' hh]
    by_cases hc : y.id = d0.id
    · have he : (if y.id == d0.id then d1 else y) = d1 := by simp [hc]
      rw [he, hid, hst]
      exact inv.final d0 hmem
    · have he : (if y.id == d0.id then d1 else y) = y := by simp [hc]
      rw [he]
      exact inv.final y hy
  · intro x hx; rw [hh] at hx; exact inv.edges x hx

lemma donorInv_transitioned {db db' : DB} {d0 : Donor} {t : DonorState}
    {cb : Nat} {role : String} {r : Option String}
    (h : donorTransitioned db db' d0 t cb role r) (inv : DonorInv db) : DonorInv db' := by
  obtain ⟨hmem, hedge, hd, hh, hn⟩ := h
  constructor
  · intro x hx; rw [hd] at hx; rw [hn]
    obtain ⟨y, hy, rfl⟩ := List.mem_map.mp hx
    by_cases hc : y.id = d0.id
    · have he : (if y.id == d0.id then { d0 with state := t } else y) = { d0 with state := t } := by
        simp [hc]
      rw [he]
      exact inv.id_lt d0 hmem
    · have he : (if y.id == d0.id then { d0 with state := t } else y) = y := by simp [hc]
      rw [he]
      exact inv.id_lt y hy
  · intro x hx; rw [hh] at hx; rw [hn]
    rcases List.mem_append.mp hx with hx | hx
    · exact inv.hist_lt x hx
    · rw [List.mem_singleton] at hx; subst hx
      exact inv.id_lt d0 hmem
  · rw [hd]
    refine pairwise_ids_map (fun x => x.id) db.donors _ ?_ inv.ids_distinct
    intro x
    by_cases hc : x.id = d0.id
    · simp [hc]
    · simp [hc]
  · intro x hx; rw [hd] at hx
    obtain ⟨y, hy, rfl⟩ := List.mem_map.mp hx
    by_cases hc : y.id = d0.id
    · have he : (if y.id == d0.id then { d0 with state := t } else y) = { d0 with state := t } := by
        simp [hc]
      rw [he]
      rw [donorHistoryFor_of_append db db' _ hh]
      have hdid : ({ d0 with state := t } : Donor).id = d0.id := rfl
      rw [hdid]
      simp only [beq_self_eq_true, if_pos]
      rw [donorChainFrom_append]
      have h1 := inv.chain d0 hmem
      have h2 := inv.final d0 hmem
      rw [h1]
      simp [← h2]
    · have he : (if y.id == d0.id then { d0 with state := t } else y) = y := by simp [hc]
      rw [he]
      rw [donorHistoryFor_of_append db db' _ hh]
      have hne : (({ donor_id := d0.id, from_state := some d0.state, to_state := t
                   , changed_by := cb, changed_by_role := role, reason := r } : DonorStateHistory).donor_id == y.id) = false := by
        simp [hc]
        intro hEq
        exact hc hEq.symm
      rw [hne]
      simp only [if_neg, Bool.false_eq_true, not_false_eq_true]
      rw [List.append_nil]
      exact inv.chain y hy
  · intro x hx; rw [hd] at hx
    obtain ⟨y, hy, rfl⟩ := List.mem_map.mp hx
    by_cases hc : y.id = d0.id
    · have he : (if y.id == d0.id then { d0 with state := t } else y) = { d0 with state := t } := by
        simp [hc]
      rw [he]
      rw [donorHistoryFor_of_append db db' _ hh]
      have hdid : ({ d0 with state := t } : Donor).id = d0.id := rfl
      rw [hdid]
      simp only [beq_self_eq_true, if_pos]
      rw [donorChainEnd_append]
    · have he : (if y.id == d0.id then { d0 with state := t } else y) = y := by simp [hc]
      rw [he]
      rw [donorHistoryFor_of_append db db' _ hh]
      have hne : (({ donor_id := d0.id, from_state := some d0.state, to_state := t
                   , changed_by := cb, changed_by_role := role, reason := r } : DonorStateHistory).donor_id == y.id) = false := by
        simp [hc]
        intro hEq
        exact hc hEq.symm
      rw [hne]
      simp only [if_neg, Bool.false_eq_true, not_false_eq_true]
      rw [List.append_nil]
      exact inv.final y hy
  · intro x hx; rw [hh] at hx
    rcases List.mem_append.mp hx with hx | hx
    · exact inv.edges x hx
    · rw [List.mem_singleton] at hx; subst hx
      unfold donorEdgeRow
      exact hedge

lemma bankInv_unchanged {db db' : DB} (h : banksUnchanged db db')
    (inv : BankInv db) : BankInv db' := by
  obtain ⟨hb, hh, hn⟩ := h
  constructor
  · intro b hbm; rw [hb] at hbm; rw [hn]; exact inv.id_lt b hbm
  · intro x hx; rw [hh] at hx; exact inv.edges x hx

lemma bankInv_created {db db' : DB} {b : Bank} (h : bankCreated db db' b)
    (inv : BankInv db) : BankInv db' := by
  obtain ⟨hid, hst, hb, hh, hn⟩ := h
  constructor
  · intro x hx; rw [hb] at hx; rw [hn]
    rcases List.mem_append.mp hx with hx | hx
    · exact Nat.lt_succ_of_lt (inv.id_lt x hx)
    · rw [List.mem_singleton] at hx; subst hx; omega
  · intro x hx; rw [hh] at hx; exact inv.edges x hx

lemma bankInv_mapped {db db' : DB} {b0 b1 : Bank}
    (hfind : db.findBank b0.id = some b0) (hid : b1.id = b0.id)
    (hb : db'.banks = db.banks.map (fun x => if x.id == b0.id then b1 else x))
    (hn : db'.nextBankId = db.nextBankId)
    (inv : BankInv db) : ∀ x ∈ db'.banks, x.id < db'.nextBankId := by
  intro x hx; rw [hb] at hx; rw [hn]
  obtain ⟨y, hy, rfl⟩ := List.mem_map.mp hx
  have hmem : b0 ∈ db.banks := List.mem_of_find?_eq_some hfind
  by_cases hc : y.id = b0.id
  · have he : (if y.id == b0.id then b1 else y) = b1 := by simp [hc]
    rw [he, hid]
    exact inv.id_lt b0 hmem
  · have he : (if y.id == b0.id then b1 else y) = y := by simp [hc]
    rw [he]
    exact inv.id_lt y hy

lemma bankInv_updated {db db' : DB} {b0 b1 : Bank} (h : bankFieldsUpdated db db' b0 b1)
    (inv : BankInv db) : BankInv db' := by
  obtain ⟨hfind, hid, _hst, hb, hh, hn⟩ := h
  refine ⟨bankInv_mapped hfind hid hb hn inv, ?_⟩
  intro x hx; rw [hh] at hx; exact inv.edges x hx

lemma bankInv_directSet {db db' : DB} {b0 b1 : Bank} (h : bankDirectSet db db' b0 b1)
    (inv : BankInv db) : BankInv db' := by
  obtain ⟨hfind, hid, _hmono, hb, hh, hn⟩ := h
  refine ⟨bankInv_mapped hfind hid hb hn inv, ?_⟩
  intro x hx; rw [hh] at hx; exact inv.edges x hx

lemma bankInv_transitioned {db db' : DB} {b0 : Bank} {t : BankState}
    {cb : Nat} {r : Option String}
    (h : bankTransitioned db db' b0 t cb r) (inv : BankInv db) : BankInv db' := by
  obtain ⟨hfind, hedge, hb, hh, hn⟩ := h
  refine ⟨@bankInv_mapped db db' b0 { b0 with state := t } hfind rfl hb hn inv, ?_⟩
  intro x hx; rw [hh] at hx
  rcases List.mem_append.mp hx with hx | hx
  · exact inv.edges x hx
  · rw [List.mem_singleton] at hx; subst hx
    unfold bankEdgeRow
    exact hedge

lemma donorStateOf_unchanged {db db' : DB} (h : donorsUnchanged db db') (i : Nat) :
    donorStateOf db' i = donorStateOf db i := by
  simp [donorStateOf, DB.findDonor, h.1]

lemma donorStateOf_created {db db' : DB} {d : Donor} (h : donorCreated db db' d)
    {i : Nat} {s : DonorState} (hpre : donorStateOf db i = some s) :
    donorStateOf db' i = some s := by
  obtain ⟨_, _, hd, _, _⟩ := h
  unfold donorStateOf DB.findDonor at hpre ⊢
  rw [hd]
  obtain ⟨x, hx, hxs⟩ := Option.map_eq_some'.mp hpre
  rw [find?_append_left _ _ _ _ hx]
  simpa using hxs

lemma donorStateOf_mapped {db db' : DB} {d0 d1 : Donor}
    (hmem : d0 ∈ db.donors)
    (hd : db'.donors = db.donors.map (fun x => if x.id == d0.id then d1 else x))
    (hid : d1.id = d0.id)
    (hdist : db.donors.Pairwise (fun a b => a.id ≠ b.id))
    {i : Nat} {s : DonorState} (hpre : donorStateOf db i = some s) :
    (i ≠ d0.id ∧ donorStateOf db' i = some s) ∨
    (i = d0.id ∧ s = d0.state ∧ donorStateOf db' i = some d1.state) := by
  unfold donorStateOf DB.findDonor at hpre ⊢
  obtain ⟨x, hx, hxs⟩ := Option.map_eq_some'.mp hpre
  have hxi : x.id = i := by
    have := List.find?_some hx
    simpa using this
  rw [hd, find?_map_update (fun y => y.id) db.donors d1 d0.id hid i, hx]
  by_cases hc : i = d0.id
  · right
    have hx0 : x = d0 := by
      refine mem_distinct_id_eq (fun y => y.id) db.donors hdist x d0
        (List.mem_of_find?_eq_some hx) hmem ?_
      exact hxi.trans hc
    refine ⟨hc, ?_, ?_⟩
    · rw [← hxs, hx0]
    · have he : (if x.id == d0.id then d1 else x) = d1 := by simp [hxi, hc]
      simp only [Option.map_some']
      rw [he]
  · left
    have he : (if x.id == d0.id then d1 else x) = x := by
      have hne : ¬(x.id = d0.id) := by rw [hxi]; exact hc
      simp [hne]
    refine ⟨hc, ?_⟩
    simp only [Option.map_some']
    rw [he, hxs]

lemma bankStateOf_mapped {db db' : DB} {b0 b1 : Bank}
    (hfind : db.findBank b0.id = some b0)
    (hb : db'.banks = db.banks.map (fun x => if x.id == b0.id then b1 else x))
    (hid : b1.id = b0.id)
    {i : Nat} {s : BankState} (hpre : bankStateOf db i = some s) :
    (i ≠ b0.id ∧ bankStateOf db' i = some s) ∨
    (i = b0.id ∧ s = b0.state ∧ bankStateOf db' i = some b1.state) := by
  unfold bankStateOf DB.findBank at hpre ⊢
  obtain ⟨x, hx, hxs⟩ := Option.map_eq_some'.mp hpre
  have hxi : x.id = i := by
    have := List.find?_some hx
    simpa using this
  rw [hb, find?_map_update (fun y => y.id) db.banks b1 b0.id hid i, hx]
  by_cases hc : i = b0.id
  · right
    have hx0 : x = b0 := by
      unfold DB.findBank at hfind
      rw [hc] at hx
      rw [hfind] at hx
      exact (Option.some_injective _ hx).symm
    refine ⟨hc, ?_, ?_⟩
    · rw [← hxs, hx0]
    · have he : (if x.id == b0.id then b1 else x) = b1 := by simp [hxi, hc]
      simp only [Option.map_some']
      rw [he]
  · left
    have he : (if x.id == b0.id then b1 else x) = x := by
      have hne : ¬(x.id = b0.id) := by rw [hxi]; exact hc
      simp [hne]
    refine ⟨hc, ?_⟩
    simp only [Option.map_some']
    rw [he, hxs]

lemma bankStateOf_unchanged {db db' : DB} (h : banksUnchanged db db') (i : Nat) :
    bankStateOf db' i = bankStateOf db i := by
  simp [bankStateOf, DB.findBank, h.1]

lemma bankStateOf_created {db db' : DB} {b : Bank} (h : bankCreated db db' b)
    {i : Nat} {s : BankState} (hpre : bankStateOf db i = some s) :
    bankStateOf db' i = some s := by
  obtain ⟨_, _, hb, _, _⟩ := h
  unfold bankStateOf DB.findBank at hpre ⊢
  rw [hb]
  obtain ⟨x, hx, hxs⟩ := Option.map_eq_some'.mp hpre
  rw [find?_append_left _ _ _ _ hx]
  simpa using hxs

lemma findBank_id {db : DB} {bid : Nat} {b : Bank} (h : db.findBank bid = some b) :
    b.id = bid := by
  unfold DB.findBank at h
  have := List.find?_some h
  simpa using this

lemma findBank_self {db : DB} {bid : Nat} {b : Bank} (h : db.findBank bid = some b) :
    db.findBank b.id = some b := by
  rw [findBank_id h]; exact h

lemma findDonor_mem {db : DB} {did : Nat} {d : Donor} (h : db.findDonor did = some d) :
    d ∈ db.donors :=
  List.mem_of_find?_eq_some h

lemma findBank_of_banks_map {db db' : DB} {b0 b1 : Bank}
    (hfind : db.findBank b0.id = some b0) (hid : b1.id = b0.id)
    (hb : db'.banks = db.banks.map (fun x => if x.id == b0.id then b1 else x)) :
    db'.findBank b1.id = some b1 := by
  unfold DB.findBank at hfind ⊢
  rw [hb, hid, find?_map_update (fun y => y.id) db.banks b1 b0.id hid b0.id, hfind]
  simp

lemma mem_donors_map_self {db₁ : DB} {ds : List Donor} {d0 d1 : Donor}
    (hmem : d0 ∈ ds)
    (hd : db₁.donors = ds.map (fun x => if x.id == d0.id then d1 else x)) :
    d1 ∈ db₁.donors := by
  rw [hd]
  have hm := List.mem_map_of_mem (fun x => if x.id == d0.id then d1 else x) hmem
  simpa using hm

lemma register_bank_effect {db db' : DB} {e n : String}
    (h : register_bank db e n = .ok db') :
    (∃ b, bankCreated db db' b) ∧ donorsUnchanged db db' := by
  unfold register_bank at h
  split at h
  · exact Except.noConfusion h
  · cases h
    exact ⟨⟨_, rfl, rfl, rfl, rfl, rfl⟩, rfl, rfl, rfl⟩

lemma create_consent_template_effect {db db' : DB} {bid o : Nat}
    (h : create_consent_template db bid o = .ok db') :
    banksUnchanged db db' ∧ donorsUnchanged db db' := by
  unfold create_consent_template get_current_bank at h
  split at h
  · exact Except.noConfusion h
  next bank hfind =>
    split at h
    · exact Except.noConfusion h
    · cases h
      exact ⟨⟨rfl, rfl, rfl⟩, rfl, rfl, rfl⟩

lemma sign_consent_effect {db db' : DB} {did tid : Nat}
    (h : sign_consent db did tid = .ok db') :
    (donorsUnchanged db db' ∨
      ∃ d0, d0 ∈ db.donors ∧ d0.state = DonorState.counseling_requested ∧
        donorTransitioned db db' d0 DonorState.consent_pending d0.id "donor"
          (some "Started signing consent forms")) ∧
    banksUnchanged db db' := by
  unfold sign_consent get_current_donor at h
  split at h
  · exact Except.noConfusion h
  next donor hfind =>
    have hmem : donor ∈ db.donors := by
      cases hfd : db.findDonor did with
      | none => rw [hfd] at hfind; exact Except.noConfusion hfind
      | some d =>
        rw [hfd] at hfind
        cases hfind
        exact findDonor_mem hfd
    split at h
    · exact Except.noConfusion h
    next hstate =>
      split at h
      · exact Except.noConfusion h
      next _t htmpl =>
        split at h
        · exact Except.noConfusion h
        next hdup =>
          dsimp only at h
          split at h
          next hfire =>
            rw [Bool.and_eq_true] at hfire
            obtain ⟨h1, _h2⟩ := hfire
            rw [beq_iff_eq] at h1
            have hedge : can_transition_donor_state donor.state DonorState.consent_pending = true := by
              rw [h1]; decide
            unfold transition_donor_state at h
            rw [if_pos hedge] at h
            dsimp only at h
            cases h
            exact ⟨Or.inr ⟨donor, hmem, h1, hmem, hedge, rfl, rfl, rfl⟩, rfl, rfl, rfl⟩
          next hnofire =>
            cases h
            exact ⟨Or.inl ⟨rfl, rfl, rfl⟩, rfl, rfl, rfl⟩

lemma request_counseling_effect {db db' : DB} {did : Nat} {m : String}
    (h : request_counseling db did m = .ok db') :
    (∃ d0, d0 ∈ db.donors ∧ d0.state = DonorState.account_created ∧
      donorTransitioned db db' d0 DonorState.counseling_requested d0.id "donor"
        (some "Counseling requested")) ∧
    banksUnchanged db db' := by
  unfold request_counseling get_current_donor at h
  split at h
  · exact Except.noConfusion h
  next donor hfind =>
    have hmem : donor ∈ db.donors := by
      cases hfd : db.findDonor did with
      | none => rw [hfd] at hfind; exact Except.noConfusion hfind
      | some d =>
        rw [hfd] at hfind
        cases hfind
        exact findDonor_mem hfd
    split at h
    · exact Except.noConfusion h
    next hstate =>
      have hstate' : donor.state = DonorState.account_created := by
        simpa using hstate
      split at h
      · exact Except.noConfusion h
      next bid hbid =>
        split at h
        · exact Except.noConfusion h
        next bank hbank =>
          dsimp only at h
          split at h
          · exact Except.noConfusion h
          next hmethod =>
            have hedge : can_transition_donor_state donor.state DonorState.counseling_requested = true := by
              rw [hstate']; decide
            unfold transition_donor_state at h
            rw [if_pos hedge] at h
            dsimp only at h
            cases h
            exact ⟨⟨donor, hmem, hstate', hmem, hedge, rfl, rfl, rfl⟩, rfl, rfl, rfl⟩

lemma create_lead_effect {db db' : DB} {e : String} {bid : Nat}
    (h : create_lead db e bid = .ok db') :
    (∃ db₁ d, donorCreated db db₁ d ∧
      donorTransitioned db₁ db' d DonorState.lead_created d.id "donor"
        (some "Lead created with bank selection")) ∧
    banksUnchanged db db' := by
  unfold create_lead at h
  split at h
  · exact Except.noConfusion h
  next bank hbank =>
    split at h
    · exact Except.noConfusion h
    next hver =>
      split at h
      · exact Except.noConfusion h
      next hdup =>
        dsimp only at h
        have hedge : can_transition_donor_state DonorState.bank_selected DonorState.lead_created = true := by
          decide
        unfold transition_donor_state at h
        rw [if_pos hedge] at h
        dsimp only at h
        cases h
        refine ⟨⟨{ db with
                    donors := db.donors ++
                      [{ id := db.nextDonorId, email := e, bank_id := some bank.id
                       , state := DonorState.bank_selected }]
                  , nextDonorId := db.nextDonorId + 1 },
                 { id := db.nextDonorId, email := e, bank_id := some bank.id
                 , state := DonorState.bank_selected },
                 ⟨rfl, rfl, rfl, rfl, rfl⟩, ?_, hedge, rfl, rfl, rfl⟩, rfl, rfl, rfl⟩
        exact List.mem_append_right _ (List.mem_singleton.mpr rfl)

lemma create_account_effect {db db' : DB} {e p : String}
    (h : create_account db e p = .ok db') :
    (∃ db₁ d0 d1, d0 ∈ db.donors ∧ d0.state = DonorState.lead_created ∧
      donorFieldsUpdated db db₁ d0 d1 ∧ d1.state = DonorState.lead_created ∧
      donorTransitioned db₁ db' d1 DonorState.account_created d1.id "donor"
        (some "Account created with credentials")) ∧
    banksUnchanged db db' := by
  unfold create_account at h
  split at h
  · exact Except.noConfusion h
  next donor hfind =>
    split at h
    · exact Except.noConfusion h
    next hstate =>
      have hstate' : donor.state = DonorState.lead_created := by simpa using hstate
      dsimp only at h
      have hedge : can_transition_donor_state donor.state DonorState.account_created = true := by
        rw [hstate']; decide
      unfold transition_donor_state at h
      rw [if_pos hedge] at h
      dsimp only at h
      cases h
      have hmem : donor ∈ db.donors := List.mem_of_find?_eq_some hfind
      refine ⟨⟨db.updateDonor donor.id { donor with hashed_password := some p },
               donor, { donor with hashed_password := some p },
               hmem, hstate', ⟨hmem, rfl, rfl, rfl, rfl, rfl⟩, hstate', ?_, hedge, rfl, rfl, rfl⟩,
              rfl, rfl, rfl⟩
      apply mem_donors_map_self hmem
      rfl

lemma verify_consent_effect {db db' : DB} {bid cid : Nat} {vs : ConsentStatus}
    {nt : Option String} (h : verify_consent db bid cid vs nt = .ok db') :
    (donorsUnchanged db db' ∨
      ∃ d0 cb, d0 ∈ db.donors ∧ d0.state = DonorState.consent_pending ∧
        donorTransitioned db db' d0 DonorState.consent_verified cb "bank"
          (some "All consents verified by bank")) ∧
    banksUnchanged db db' := by
  unfold verify_consent get_subscribed_bank get_verified_bank get_current_bank at h
  split at h
  · exact Except.noConfusion h
  next bank hbank =>
    split at h
    · exact Except.noConfusion h
    next consent hconsent =>
      split at h
      · exact Except.noConfusion h
      next donor hdonor =>
        have hmem : donor ∈ db.donors := List.mem_of_find?_eq_some hdonor
        dsimp only at h
        split at h
        next hquorum =>
          split at h
          next hst =>
            rw [beq_iff_eq] at hst
            have hedge : can_transition_donor_state donor.state DonorState.consent_verified = true := by
              rw [hst]; decide
            unfold transition_donor_state at h
            rw [if_pos hedge] at h
            dsimp only at h
            cases h
            exact ⟨Or.inr ⟨donor, bank.id, hmem, hst, hmem, hedge, rfl, rfl, rfl⟩, rfl, rfl, rfl⟩
          next hst =>
            cases h
            exact ⟨Or.inl ⟨rfl, rfl, rfl⟩, rfl, rfl, rfl⟩
        next hquorum =>
          cases h
          exact ⟨Or.inl ⟨rfl, rfl, rfl⟩, rfl, rfl, rfl⟩

lemma upload_test_report_effect {db db' : DB} {bid did : Nat}
    (h : upload_test_report db bid did = .ok db') :
    (donorsUnchanged db db' ∨
      ∃ d0 cb, d0 ∈ db.donors ∧ d0.state = DonorState.consent_verified ∧
        donorTransitioned db db' d0 DonorState.tests_pending cb "bank"
          (some "Test report uploaded by bank")) ∧
    banksUnchanged db db' := by
  unfold upload_test_report get_subscribed_bank get_verified_bank get_current_bank at h
  split at h
  · exact Except.noConfusion h
  next bank hbank =>
    split at h
    · exact Except.noConfusion h
    next donor hdonor =>
      have hmem : donor ∈ db.donors := List.mem_of_find?_eq_some hdonor
      split at h
      · exact Except.noConfusion h
      next hstateok =>
        dsimp only at h
        split at h
        next hst =>
          rw [beq_iff_eq] at hst
          have hedge : can_transition_donor_state donor.state DonorState.tests_pending = true := by
            rw [hst]; decide
          unfold transition_donor_state at h
          rw [if_pos hedge] at h
          dsimp only at h
          cases h
          exact ⟨Or.inr ⟨donor, bank.id, hmem, hst, hmem, hedge, rfl, rfl, rfl⟩, rfl, rfl, rfl⟩
        next hst =>
          cases h
          exact ⟨Or.inl ⟨rfl, rfl, rfl⟩, rfl, rfl, rfl⟩

lemma make_eligibility_decision_effect {db db' : DB} {bid did : Nat}
    {st : EligibilityStatus} {nt : Option String}
    (h : make_eligibility_decision db bid did st nt = .ok db') :
    (∃ db₁ db₂ d0 d1 cb, d0 ∈ db.donors ∧ d0.state = DonorState.tests_pending ∧
      donorFieldsUpdated db db₁ d0 d1 ∧ d1.state = DonorState.tests_pending ∧
      donorTransitioned db₁ db₂ d1 DonorState.eligibility_decision cb "bank"
        (some ("Eligibility decision: " ++ st.value)) ∧
      (donorsUnchanged db₂ db' ∨
        donorTransitioned db₂ db' { d1 with state := DonorState.eligibility_decision }
          DonorState.donor_onboarded cb "bank" (some "Donor approved and onboarded"))) ∧
    banksUnchanged db db' := by
  unfold make_eligibility_decision get_subscribed_bank get_verified_bank get_current_bank at h
  split at h
  · exact Except.noConfusion h
  next bank hbank =>
    split at h
    · exact Except.noConfusion h
    next donor hdonor =>
      have hmem : donor ∈ db.donors := List.mem_of_find?_eq_some hdonor
      split at h
      · exact Except.noConfusion h
      next hstate =>
        have hstate' : donor.state = DonorState.tests_pending := by simpa using hstate
        dsimp only at h
        have hedge : can_transition_donor_state donor.state DonorState.eligibility_decision = true := by
          rw [hstate']; decide
        unfold transition_donor_state at h
        rw [if_pos hedge] at h
        dsimp only at h
        have hedge2 : can_transition_donor_state DonorState.eligibility_decision DonorState.donor_onboarded = true := by
          decide
        split at h
        next happroved =>
          dsimp only at h
          cases h
          rw [beq_iff_eq] at happroved
          subst happroved
          refine ⟨⟨db.updateDonor donor.id
                    { donor with eligibility_status := EligibilityStatus.approved
                               , eligibility_notes := nt },
                  { (db.updateDonor donor.id
                      { donor with eligibility_status := EligibilityStatus.approved
                                 , eligibility_notes := nt }).updateDonor donor.id
                      { donor with state := DonorState.eligibility_decision
                                 , eligibility_status := EligibilityStatus.approved
                                 , eligibility_notes := nt } with
                    donor_history := (db.updateDonor donor.id
                      { donor with eligibility_status := EligibilityStatus.approved
                                 , eligibility_notes := nt }).donor_history ++
                      [{ donor_id := donor.id, from_state := some donor.state
                       , to_state := DonorState.eligibility_decision, changed_by := bank.id
                       , changed_by_role := "bank"
                       , reason := some ("Eligibility decision: " ++ EligibilityStatus.approved.value) }] },
                  donor,
                  { donor with eligibility_status := EligibilityStatus.approved
                             , eligibility_notes := nt },
                  bank.id,
                  hmem, hstate', ⟨hmem, rfl, rfl, rfl, rfl, rfl⟩, hstate',
                  ⟨?_, hedge, rfl, rfl, rfl⟩, Or.inr ⟨?_, hedge2, rfl, rfl, rfl⟩⟩,
                 rfl, rfl, rfl⟩
          · apply mem_donors_map_self hmem
            rfl
          · have hmem1 : ({ donor with
                              eligibility_status := EligibilityStatus.approved,
                              eligibility_notes := nt } : Donor) ∈
                (db.updateDonor donor.id
                  { donor with
                    eligibility_status := EligibilityStatus.approved,
                    eligibility_notes := nt }).donors := by
              apply mem_donors_map_self hmem
              rfl
            apply mem_donors_map_self hmem1
            rfl
        next hother =>
          injection h with hdb
          refine ⟨⟨db.updateDonor donor.id
                    { donor with eligibility_status := st, eligibility_notes := nt }, db',
                   donor, { donor with eligibility_status := st, eligibility_notes := nt }, bank.id,
                   hmem, hstate', ⟨hmem, rfl, rfl, rfl, rfl, rfl⟩, hstate',
                   ⟨?_, hedge, ?_, ?_, ?_⟩, Or.inl ⟨rfl, rfl, rfl⟩⟩,
                  ?_, ?_, ?_⟩
          · apply mem_donors_map_self hmem
            rfl
          · rw [← hdb] <;> rfl
          · rw [← hdb] <;> rfl
          · rw [← hdb] <;> rfl
          · rw [← hdb] <;> rfl
          · rw [← hdb] <;> rfl
          · rw [← hdb] <;> rfl

lemma findBank_updateDB {db : DB} {b0 : Bank} (b1 : Bank)
    (hfind : db.findBank b0.id = some b0) (hid : b1.id = b0.id) :
    (db.updateBank b0.id b1).findBank b1.id = some b1 := by
  apply findBank_of_banks_map hfind hid
  rfl

lemma findBank_transDB {db : DB} {b0 : Bank} (t : BankState) (cb : Nat) (r : Option String)
    (hfind : db.findBank b0.id = some b0) :
    (bankTransDB db b0 t cb r).findBank ({ b0 with state := t } : Bank).id
      = some { b0 with state := t } := by
  apply findBank_of_banks_map hfind
  · rfl
  · rfl

lemma get_current_bank_ok {db : DB} {bid : Nat} {bank : Bank}
    (h : get_current_bank db bid = .ok bank) : db.findBank bid = some bank := by
  unfold get_current_bank at h
  cases hfb : db.findBank bid with
  | none => rw [hfb] at h; exact Except.noConfusion h
  | some b => rw [hfb] at h; cases h; rfl

lemma get_verified_bank_ok {db : DB} {bid : Nat} {bank : Bank}
    (h : get_verified_bank db bid = .ok bank) :
    db.findBank bid = some bank ∧ bank.is_verified = true := by
  unfold get_verified_bank at h
  split at h
  · exact Except.noConfusion h
  next b hb =>
    split at h
    next hv => cases h; exact ⟨get_current_bank_ok hb, hv⟩
    · exact Except.noConfusion h

lemma get_subscribed_bank_ok {db : DB} {bid : Nat} {bank : Bank}
    (h : get_subscribed_bank db bid = .ok bank) :
    db.findBank bid = some bank ∧ bank.is_verified = true ∧ bank.is_subscribed = true := by
  unfold get_subscribed_bank at h
  split at h
  · exact Except.noConfusion h
  next b hb =>
    split at h
    next hs => cases h; exact ⟨(get_verified_bank_ok hb).1, (get_verified_bank_ok hb).2, hs⟩
    · exact Except.noConfusion h

lemma admin_verify_bank_effect {db db' : DB} {bid : Nat} {vb : String}
    (h : admin_verify_bank db bid vb = .ok db') :
    (∃ b0 b1, bankDirectSet db db' b0 b1) ∧ donorsUnchanged db db' := by
  unfold admin_verify_bank at h
  split at h
  · exact Except.noConfusion h
  next bank hfind =>
    split at h
    · exact Except.noConfusion h
    next hnv =>
      dsimp only at h
      cases h
      refine ⟨⟨bank,
        (if bank.state == BankState.verification_pending then
          { bank with
            is_verified := true,
            verified_at := some db.now,
            verified_by := some vb,
            state := BankState.verified }
        else
          { bank with
            is_verified := true,
            verified_at := some db.now,
            verified_by := some vb }),
        findBank_self hfind, ?_, ?_, ?_, rfl, rfl⟩, rfl, rfl, rfl⟩
      · split <;> rfl
      · split
        next hc =>
          rw [beq_iff_eq] at hc
          rw [hc]
          exact (by decide : bankIdx BankState.verification_pending ≤ bankIdx BankState.verified)
        next hc => exact Nat.le_refl _
      · rw [findBank_id hfind] <;> rfl

lemma admin_update_bank_subscription_effect {db db' : DB} {bid : Nat} {tier : String}
    {sa se : Nat} (h : admin_update_bank_subscription db bid tier sa se = .ok db') :
    (∃ b0 b1, bankDirectSet db db' b0 b1) ∧ donorsUnchanged db db' := by
  unfold admin_update_bank_subscription at h
  split at h
  · exact Except.noConfusion h
  next bank hfind =>
    split at h
    · exact Except.noConfusion h
    next hv =>
      dsimp only at h
      cases h
      refine ⟨⟨bank,
        (if bank.state == BankState.verified || bank.state == BankState.subscription_pending then
          { bank with
            is_subscribed := true,
            subscription_tier := some tier,
            subscription_started_at := some sa,
            subscription_expires_at := some se,
            state := BankState.subscribed_onboarded }
        else
          { bank with
            is_subscribed := true,
            subscription_tier := some tier,
            subscription_started_at := some sa,
            subscription_expires_at := some se }),
        findBank_self hfind, ?_, ?_, ?_, rfl, rfl⟩, rfl, rfl, rfl⟩
      · split <;> rfl
      · split
        next hc =>
          rw [Bool.or_eq_true] at hc
          rcases hc with hc | hc <;> rw [beq_iff_eq] at hc <;> rw [hc]
          · exact (by decide :
              bankIdx BankState.verified ≤ bankIdx BankState.subscribed_onboarded)
          · exact (by decide :
              bankIdx BankState.subscription_pending ≤ bankIdx BankState.subscribed_onboarded)
        next hc => exact Nat.le_refl _
      · rw [findBank_id hfind] <;> rfl

lemma upload_certification_effect {db db' : DB} {bid : Nat} {f : String}
    (h : upload_certification db bid f = .ok db') :
    (∃ db₁ b0 b1, bankFieldsUpdated db db₁ b0 b1 ∧
      (banksUnchanged db₁ db' ∨
        (b1.state = BankState.account_created ∧
         bankTransitioned db₁ db' b1 BankState.verification_pending b1.id
           (some "Certification documents uploaded")))) ∧
    donorsUnchanged db db' := by
  unfold upload_certification at h
  split at h
  · exact Except.noConfusion h
  next bank hfind =>
    have hfind' : db.findBank bid = some bank := get_current_bank_ok hfind
    dsimp only at h
    split at h
    next hc =>
      rw [beq_iff_eq] at hc
      have hedge : can_transition_bank_state bank.state BankState.verification_pending = true := by
        rw [hc]; decide
      unfold transition_bank_state at h
      rw [if_pos hedge] at h
      dsimp only at h
      cases h
      refine ⟨⟨db.updateBank bank.id
          { bank with certification_documents := bank.certification_documents ++ [f] },
        bank,
        { bank with certification_documents := bank.certification_documents ++ [f] },
        ⟨findBank_self hfind', rfl, rfl, rfl, rfl, rfl⟩,
        Or.inr ⟨hc, ?_, hedge, rfl, rfl, rfl⟩⟩,
        rfl, rfl, rfl⟩
      apply findBank_of_banks_map (findBank_self hfind')
      · rfl
      · rfl
    next hc =>
      cases h
      refine ⟨⟨db.updateBank bank.id
          { bank with certification_documents := bank.certification_documents ++ [f] },
        bank,
        { bank with certification_documents := bank.certification_documents ++ [f] },
        ⟨findBank_self hfind', rfl, rfl, rfl, rfl, rfl⟩,
        Or.inl ⟨rfl, rfl, rfl⟩⟩,
        rfl, rfl, rfl⟩

lemma create_subscription_effect {db db' : DB} {bid : Nat} {tier : String}
    (h : create_subscription db bid tier = .ok db') :
    (∃ db₁ db₂ db₃ b0 b1, bankFieldsUpdated db db₁ b0 b1 ∧ b1.state = BankState.verified ∧
      bankTransitioned db₁ db₂ b1 BankState.subscription_pending b1.id
        (some "Subscription initiated") ∧
      bankTransitioned db₂ db₃ { b1 with state := BankState.subscription_pending }
        BankState.subscribed_onboarded b1.id (some "Subscription completed") ∧
      bankTransitioned db₃ db' { b1 with state := BankState.subscribed_onboarded }
        BankState.operational b1.id (some "Bank is now operational")) ∧
    donorsUnchanged db db' := by
  unfold create_subscription at h
  split at h
  · exact Except.noConfusion h
  next bank hbank =>
    have hfind' : db.findBank bid = some bank := (get_verified_bank_ok hbank).1
    split at h
    · exact Except.noConfusion h
    next hstv =>
      have hstv' : bank.state = BankState.verified := by simpa using hstv
      dsimp only at h
      have hedge1 : can_transition_bank_state bank.state BankState.subscription_pending = true := by
        rw [hstv']; decide
      unfold transition_bank_state at h
      rw [if_pos hedge1] at h
      dsimp only at h
      cases h
      have f0 : db.findBank bank.id = some bank := findBank_self hfind'
      have f1 := findBank_updateDB
        { bank with
          subscription_tier := some tier,
          is_subscribed := true,
          subscription_started_at := some db.now } f0 rfl
      have f2 := findBank_transDB BankState.subscription_pending bank.id
        (some "Subscription initiated") f1
      have f3 := findBank_transDB BankState.subscribed_onboarded bank.id
        (some "Subscription completed") f2
      refine ⟨⟨db.updateBank bank.id
          { bank with
            subscription_tier := some tier,
            is_subscribed := true,
            subscription_started_at := some db.now },
        bankTransDB (db.updateBank bank.id
            { bank with
              subscription_tier := some tier,
              is_subscribed := true,
              subscription_started_at := some db.now })
          { bank with
            subscription_tier := some tier,
            is_subscribed := true,
            subscription_started_at := some db.now }
          BankState.subscription_pending bank.id (some "Subscription initiated"),
        bankTransDB (bankTransDB (db.updateBank bank.id
              { bank with
                subscription_tier := some tier,
                is_subscribed := true,
                subscription_started_at := some db.now })
            { bank with
              subscription_tier := some tier,
              is_subscribed := true,
              subscription_started_at := some db.now }
            BankState.subscription_pending bank.id (some "Subscription initiated"))
          { bank with
            subscription_tier := some tier,
            is_subscribed := true,
            subscription_started_at := some db.now,
            state := BankState.subscription_pending }
          BankState.subscribed_onboarded bank.id (some "Subscription completed"),
        bank,
        { bank with
          subscription_tier := some tier,
          is_subscribed := true,
          subscription_started_at := some db.now },
        ⟨f0, rfl, rfl, rfl, rfl, rfl⟩, hstv',
        ⟨f1, hedge1, rfl, rfl, rfl⟩,
        ⟨f2, (by decide :
          can_transition_bank_state BankState.subscription_pending
            BankState.subscribed_onboarded = true), rfl, rfl, rfl⟩,
        ⟨f3, (by decide :
          can_transition_bank_state BankState.subscribed_onboarded
            BankState.operational = true), rfl, rfl, rfl⟩⟩, rfl, rfl, rfl⟩

lemma donorStates_of_trans {db db' : DB} {d0 : Donor} {t : DonorState}
    {cb : Nat} {role : String} {r : Option String}
    (h : donorTransitioned db db' d0 t cb role r)
    (hsrc : d0.state ≠ DonorState.eligibility_decision) (inv : DonorInv db) :
    ∀ i s, donorStateOf db i = some s →
      ∃ s', donorStateOf db' i = some s' ∧ donorIdx s ≤ donorIdx s' ∧
        (s = DonorState.eligibility_decision → s' = DonorState.eligibility_decision) := by
  intro i s hp
  obtain ⟨hmem, hedge, hd, _hh, _hn⟩ := h
  rcases donorStateOf_mapped hmem hd rfl inv.ids_distinct hp with ⟨_hne, hpost⟩ | ⟨_heq, hs, hpost⟩
  · exact ⟨s, hpost, Nat.le_refl _, fun he => he⟩
  · refine ⟨t, hpost, ?_, ?_⟩
    · have hidx := donor_edge_idx d0.state t hedge
      rw [hs]
      omega
    · intro he
      exact absurd (hs ▸ he) hsrc

lemma donorStates_of_updated {db db' : DB} {d0 d1 : Donor}
    (h : donorFieldsUpdated db db' d0 d1) (inv : DonorInv db) :
    ∀ i s, donorStateOf db i = some s → donorStateOf db' i = some s := by
  intro i s hp
  obtain ⟨hmem, hid, hst, hd, _hh, _hn⟩ := h
  rcases donorStateOf_mapped hmem hd hid inv.ids_distinct hp with ⟨_hne, hpost⟩ | ⟨_heq, hs, hpost⟩
  · exact hpost
  · rw [hpost, hst, ← hs]

lemma bankStates_of_trans {db db' : DB} {b0 : Bank} {t : BankState}
    {cb : Nat} {r : Option String}
    (h : bankTransitioned db db' b0 t cb r) :
    ∀ i s, bankStateOf db i = some s →
      ∃ s', bankStateOf db' i = some s' ∧ bankIdx s ≤ bankIdx s' := by
  intro i s hp
  obtain ⟨hfind, hedge, hb, _hh, _hn⟩ := h
  rcases bankStateOf_mapped hfind hb rfl hp with ⟨_hne, hpost⟩ | ⟨_heq, hs, hpost⟩
  · exact ⟨s, hpost, Nat.le_refl _⟩
  · refine ⟨t, hpost, ?_⟩
    have hidx := bank_edge_idx b0.state t hedge
    rw [hs]
    omega

lemma bankStates_of_directSet {db db' : DB} {b0 b1 : Bank}
    (h : bankDirectSet db db' b0 b1) :
    ∀ i s, bankStateOf db i = some s →
      ∃ s', bankStateOf db' i = some s' ∧ bankIdx s ≤ bankIdx s' := by
  intro i s hp
  obtain ⟨hfind, hid, hmono, hb, _hh, _hn⟩ := h
  rcases bankStateOf_mapped hfind hb hid hp with ⟨_hne, hpost⟩ | ⟨_heq, hs, hpost⟩
  · exact ⟨s, hpost, Nat.le_refl _⟩
  · exact ⟨b1.state, hpost, hs ▸ hmono⟩

lemma bankStates_of_updated {db db' : DB} {b0 b1 : Bank}
    (h : bankFieldsUpdated db db' b0 b1) :
    ∀ i s, bankStateOf db i = some s → bankStateOf db' i = some s := by
  intro i s hp
  obtain ⟨hfind, hid, hst, hb, _hh, _hn⟩ := h
  rcases bankStateOf_mapped hfind hb hid hp with ⟨_hne, hpost⟩ | ⟨_heq, hs, hpost⟩
  · exact hpost
  · rw [hpost, hst, ← hs]

lemma donor_id_ne_of_state_ne {db : DB} {d0 : Donor} {i : Nat} {s : DonorState}
    (inv : DonorInv db) (hmem : d0 ∈ db.donors)
    (hpre : donorStateOf db i = some s) (hne : s ≠ d0.state) : i ≠ d0.id := by
  intro hi
  unfold donorStateOf DB.findDonor at hpre
  obtain ⟨x, hx, hxs⟩ := Option.map_eq_some'.mp hpre
  have hxi : x.id = i := by
    have := List.find?_some hx
    simpa using this
  have hx0 : x = d0 := by
    refine mem_distinct_id_eq (fun y => y.id) db.donors inv.ids_distinct x d0
      (List.mem_of_find?_eq_some hx) hmem ?_
    exact hxi.trans hi
  exact hne (by rw [← hxs, hx0])

lemma donorStepOK_comp {db db₁ db₂ : DB} (h1 : DonorStepOK db db₁)
    (h2 : DonorStepOK db₁ db₂) : DonorStepOK db db₂ := by
  intro i s hp
  obtain ⟨s1, hp1, hle1, hel1⟩ := h1 i s hp
  obtain ⟨s2, hp2, hle2, hel2⟩ := h2 i s1 hp1
  exact ⟨s2, hp2, Nat.le_trans hle1 hle2, fun he => hel2 (hel1 he)⟩

lemma bankStepOK_comp {db db₁ db₂ : DB} (h1 : BankStepOK db db₁)
    (h2 : BankStepOK db₁ db₂) : BankStepOK db db₂ := by
  intro i s hp
  obtain ⟨s1, hp1, hle1⟩ := h1 i s hp
  obtain ⟨s2, hp2, hle2⟩ := h2 i s1 hp1
  exact ⟨s2, hp2, Nat.le_trans hle1 hle2⟩

lemma donorStepOK_unchanged {db db' : DB} (h : donorsUnchanged db db') :
    DonorStepOK db db' := by
  intro i s hp
  refine ⟨s, ?_, Nat.le_refl _, fun he => he⟩
  rw [donorStateOf_unchanged h]
  exact hp

lemma donorStepOK_created {db db' : DB} {d : Donor} (h : donorCreated db db' d) :
    DonorStepOK db db' := by
  intro i s hp
  exact ⟨s, donorStateOf_created h hp, Nat.le_refl _, fun he => he⟩

lemma donorStepOK_updated {db db' : DB} {d0 d1 : Donor}
    (h : donorFieldsUpdated db db' d0 d1) (inv : DonorInv db) :
    DonorStepOK db db' := by
  intro i s hp
  exact ⟨s, donorStates_of_updated h inv i s hp, Nat.le_refl _, fun he => he⟩

lemma donorStepOK_trans {db db' : DB} {d0 : Donor} {t : DonorState}
    {cb : Nat} {role : String} {r : Option String}
    (h : donorTransitioned db db' d0 t cb role r)
    (hsrc : d0.state ≠ DonorState.eligibility_decision) (inv : DonorInv db) :
    DonorStepOK db db' :=
  donorStates_of_trans h hsrc inv

lemma bankStepOK_unchanged {db db' : DB} (h : banksUnchanged db db') :
    BankStepOK db db' := by
  intro i s hp
  refine ⟨s, ?_, Nat.le_refl _⟩
  rw [bankStateOf_unchanged h]
  exact hp

lemma bankStepOK_created {db db' : DB} {b : Bank} (h : bankCreated db db' b) :
    BankStepOK db db' := by
  intro i s hp
  exact ⟨s, bankStateOf_created h hp, Nat.le_refl _⟩

lemma bankStepOK_updated {db db' : DB} {b0 b1 : Bank}
    (h : bankFieldsUpdated db db' b0 b1) : BankStepOK db db' := by
  intro i s hp
  exact ⟨s, bankStates_of_updated h i s hp, Nat.le_refl _⟩

lemma bankStepOK_trans {db db' : DB} {b0 : Bank} {t : BankState}
    {cb : Nat} {r : Option String} (h : bankTransitioned db db' b0 t cb r) :
    BankStepOK db db' :=
  bankStates_of_trans h

lemma bankStepOK_directSet {db db' : DB} {b0 b1 : Bank}
    (h : bankDirectSet db db' b0 b1) : BankStepOK db db' :=
  bankStates_of_directSet h

lemma donorStateOf_mapped_ne {db db' : DB} {d0 d1 : Donor} {i : Nat}
    (hd : db'.donors = db.donors.map (fun x => if x.id == d0.id then d1 else x))
    (hid : d1.id = d0.id) (hne : i ≠ d0.id) :
    donorStateOf db' i = donorStateOf db i := by
  unfold donorStateOf DB.findDonor
  rw [hd, find?_map_update (fun y => y.id) db.donors d1 d0.id hid i]
  cases hx : db.donors.find? (fun d => d.id == i) with
  | none => rfl
  | some x =>
    have hxi : x.id = i := by
      have := List.find?_some hx
      simpa using this
    have he : (if x.id == d0.id then d1 else x) = x := by
      have hne2 : ¬(x.id = d0.id) := by rw [hxi]; exact hne
      simp [hne2]
    simp only [Option.map_some']
    rw [he]

lemma donorStepOK_eligibility {db db₁ db₂ db₃ : DB} {d0 d1 : Donor}
    {cb : Nat} {r₁ r₂ : Option String}
    (hupd : donorFieldsUpdated db db₁ d0 d1)
    (hsrc : d0.state = DonorState.tests_pending)
    (h1 : donorTransitioned db₁ db₂ d1 DonorState.eligibility_decision cb "bank" r₁)
    (h2 : donorsUnchanged db₂ db₃ ∨
      donorTransitioned db₂ db₃ { d1 with state := DonorState.eligibility_decision }
        DonorState.donor_onboarded cb "bank" r₂)
    (invD : DonorInv db) : DonorStepOK db db₃ := by
  have invD₁ : DonorInv db₁ := donorInv_updated hupd invD
  have invD₂ : DonorInv db₂ := donorInv_transitioned h1 invD₁
  have hid10 : d1.id = d0.id := hupd.2.1
  intro i s hp
  by_cases hi : i = d0.id
  · -- the target donor itself: tests_pending, then forward
    subst hi
    have hs : s = d0.state := by
      rcases donorStateOf_mapped hupd.1 hupd.2.2.2.1 hupd.2.1 invD.ids_distinct hp with
        ⟨hne, _⟩ | ⟨_, hs, _⟩
      · exact absurd rfl hne
      · exact hs
    have hp1 : donorStateOf db₁ d0.id = some d1.state :=
      (by
        rcases donorStateOf_mapped hupd.1 hupd.2.2.2.1 hupd.2.1 invD.ids_distinct hp with
          ⟨hne, _⟩ | ⟨_, _, hpost⟩
        · exact absurd rfl hne
        · exact hpost)
    have hp2 : donorStateOf db₂ d0.id = some DonorState.eligibility_decision := by
      rcases donorStateOf_mapped h1.1 h1.2.2.1 (hid10 ▸ rfl) invD₁.ids_distinct hp1 with
        ⟨hne, _⟩ | ⟨_, _, hpost⟩
      · exact absurd hid10.symm hne
      · exact hpost
    rcases h2 with h2 | h2
    · refine ⟨DonorState.eligibility_decision, ?_, ?_, ?_⟩
      · rw [donorStateOf_unchanged h2]; exact hp2
      · rw [hs, hsrc]; exact (by decide :
          donorIdx DonorState.tests_pending ≤ donorIdx DonorState.eligibility_decision)
      · intro he; rfl
    · have hp3 : donorStateOf db₃ d0.id = some DonorState.donor_onboarded := by
        rcases donorStateOf_mapped h2.1 h2.2.2.1 (hid10 ▸ rfl) invD₂.ids_distinct hp2 with
          ⟨hne, _⟩ | ⟨_, _, hpost⟩
        · exact absurd hid10.symm hne
        · exact hpost
      refine ⟨DonorState.donor_onboarded, hp3, ?_, ?_⟩
      · rw [hs, hsrc]; exact (by decide :
          donorIdx DonorState.tests_pending ≤ donorIdx DonorState.donor_onboarded)
      · intro he
        rw [hs, hsrc] at he
        exact absurd he (by decide)
  · -- an unrelated donor: untouched by all three writes
    have hp1 : donorStateOf db₁ i = some s := by
      rw [donorStateOf_mapped_ne hupd.2.2.2.1 hupd.2.1 hi]; exact hp
    have hp2 : donorStateOf db₂ i = some s := by
      rw [donorStateOf_mapped_ne h1.2.2.1 (hid10 ▸ rfl) (hid10 ▸ hi)]; exact hp1
    have hp3 : donorStateOf db₃ i = some s := by
      rcases h2 with h2 | h2
      · rw [donorStateOf_unchanged h2]; exact hp2
      · rw [donorStateOf_mapped_ne h2.2.2.1 (hid10 ▸ rfl) (hid10 ▸ hi)]; exact hp2
    exact ⟨s, hp3, Nat.le_refl _, fun he => he⟩

lemma donorStepOK_refl (db : DB) : DonorStepOK db db := by
  intro i s hp
  exact ⟨s, hp, Nat.le_refl _, fun he => he⟩

lemma bankStepOK_refl (db : DB) : BankStepOK db db := by
  intro i s hp
  exact ⟨s, hp, Nat.le_refl _⟩

lemma step_facts (db : DB) (op : Op) (invD : DonorInv db) (invB : BankInv db) :
    DonorInv (applyOp db op) ∧ BankInv (applyOp db op) ∧
    DonorStepOK db (applyOp db op) ∧ BankStepOK db (applyOp db op) := by
  cases op with
  | registerBank e n =>
    cases hres : register_bank db e n with
    | error err =>
      have happ : applyOp db (Op.registerBank e n) = db := by simp [applyOp, opResult, hres]
      rw [happ]
      exact ⟨invD, invB, donorStepOK_refl db, bankStepOK_refl db⟩
    | ok db' =>
      have happ : applyOp db (Op.registerBank e n) = db' := by simp [applyOp, opResult, hres]
      rw [happ]
      obtain ⟨⟨b, hbc⟩, hdu⟩ := register_bank_effect hres
      exact ⟨donorInv_unchanged hdu invD, bankInv_created hbc invB,
             donorStepOK_unchanged hdu, bankStepOK_created hbc⟩
  | uploadCertification bid f =>
    cases hres : upload_certification db bid f with
    | error err =>
      have happ : applyOp db (Op.uploadCertification bid f) = db := by
        simp [applyOp, opResult, hres]
      rw [happ]
      exact ⟨invD, invB, donorStepOK_refl db, bankStepOK_refl db⟩
    | ok db' =>
      have happ : applyOp db (Op.uploadCertification bid f) = db' := by
        simp [applyOp, opResult, hres]
      rw [happ]
      obtain ⟨⟨db₁, b0, b1, hupd, hrest⟩, hdu⟩ := upload_certification_effect hres
      have invB₁ : BankInv db₁ := bankInv_updated hupd invB
      refine ⟨donorInv_unchanged hdu invD, ?_, donorStepOK_unchanged hdu, ?_⟩
      · rcases hrest with hbu | ⟨_, htr⟩
        · exact bankInv_unchanged hbu invB₁
        · exact bankInv_transitioned htr invB₁
      · rcases hrest with hbu | ⟨_, htr⟩
        · exact bankStepOK_comp (bankStepOK_updated hupd) (bankStepOK_unchanged hbu)
        · exact bankStepOK_comp (bankStepOK_updated hupd) (bankStepOK_trans htr)
  | createSubscription bid tier =>
    cases hres : create_subscription db bid tier with
    | error err =>
      have happ : applyOp db (Op.createSubscription bid tier) = db := by
        simp [applyOp, opResult, hres]
      rw [happ]
      exact ⟨invD, invB, donorStepOK_refl db, bankStepOK_refl db⟩
    | ok db' =>
      have happ : applyOp db (Op.createSubscription bid tier) = db' := by
        simp [applyOp, opResult, hres]
      rw [happ]
      obtain ⟨⟨db₁, db₂, db₃, b0, b1, hupd, _hst, ht1, ht2, ht3⟩, hdu⟩ :=
        create_subscription_effect hres
      have invB₁ : BankInv db₁ := bankInv_updated hupd invB
      have invB₂ : BankInv db₂ := bankInv_transitioned ht1 invB₁
      have invB₃ : BankInv db₃ := bankInv_transitioned ht2 invB₂
      refine ⟨donorInv_unchanged hdu invD, bankInv_transitioned ht3 invB₃,
              donorStepOK_unchanged hdu, ?_⟩
      exact bankStepOK_comp (bankStepOK_updated hupd)
        (bankStepOK_comp (bankStepOK_trans ht1)
          (bankStepOK_comp (bankStepOK_trans ht2) (bankStepOK_trans ht3)))
  | createConsentTemplate bid o =>
    cases hres : create_consent_template db bid o with
    | error err =>
      have happ : applyOp db (Op.createConsentTemplate bid o) = db := by
        simp [applyOp, opResult, hres]
      rw [happ]
      exact ⟨invD, invB, donorStepOK_refl db, bankStepOK_refl db⟩
    | ok db' =>
      have happ : applyOp db (Op.createConsentTemplate bid o) = db' := by
        simp [applyOp, opResult, hres]
      rw [happ]
      obtain ⟨hbu, hdu⟩ := create_consent_template_effect hres
      exact ⟨donorInv_unchanged hdu invD, bankInv_unchanged hbu invB,
             donorStepOK_unchanged hdu, bankStepOK_unchanged hbu⟩
  | createLead e bid =>
    cases hres : create_lead db e bid with
    | error err =>
      have happ : applyOp db (Op.createLead e bid) = db := by
        simp [applyOp, opResult, hres]
      rw [happ]
      exact ⟨invD, invB, donorStepOK_refl db, bankStepOK_refl db⟩
    | ok db' =>
      have happ : applyOp db (Op.createLead e bid) = db' := by
        simp [applyOp, opResult, hres]
      rw [happ]
      obtain ⟨⟨db₁, d, hc, htr⟩, hbu⟩ := create_lead_effect hres
      have invD₁ : DonorInv db₁ := donorInv_created hc invD
      have hsrc : d.state ≠ DonorState.eligibility_decision := by
        rw [hc.2.1]; decide
      exact ⟨donorInv_transitioned htr invD₁, bankInv_unchanged hbu invB,
             donorStepOK_comp (donorStepOK_created hc) (donorStepOK_trans htr hsrc invD₁),
             bankStepOK_unchanged hbu⟩
  | createAccount e p =>
    cases hres : create_account db e p with
    | error err =>
      have happ : applyOp db (Op.createAccount e p) = db := by
        simp [applyOp, opResult, hres]
      rw [happ]
      exact ⟨invD, invB, donorStepOK_refl db, bankStepOK_refl db⟩
    | ok db' =>
      have happ : applyOp db (Op.createAccount e p) = db' := by
        simp [applyOp, opResult, hres]
      rw [happ]
      obtain ⟨⟨db₁, d0, d1, _hmem, _hsrc0, hupd, hsrc1, htr⟩, hbu⟩ := create_account_effect hres
      have invD₁ : DonorInv db₁ := donorInv_updated hupd invD
      have hsrc : d1.state ≠ DonorState.eligibility_decision := by
        rw [hsrc1]; decide
      exact ⟨donorInv_transitioned htr invD₁, bankInv_unchanged hbu invB,
             donorStepOK_comp (donorStepOK_updated hupd invD) (donorStepOK_trans htr hsrc invD₁),
             bankStepOK_unchanged hbu⟩
  | requestCounseling did m =>
    cases hres : request_counseling db did m with
    | error err =>
      have happ : applyOp db (Op.requestCounseling did m) = db := by
        simp [applyOp, opResult, hres]
      rw [happ]
      exact ⟨invD, invB, donorStepOK_refl db, bankStepOK_refl db⟩
    | ok db' =>
      have happ : applyOp db (Op.requestCounseling did m) = db' := by
        simp [applyOp, opResult, hres]
      rw [happ]
      obtain ⟨⟨d0, _hmem, hsrc0, htr⟩, hbu⟩ := request_counseling_effect hres
      have hsrc : d0.state ≠ DonorState.eligibility_decision := by
        rw [hsrc0]; decide
      exact ⟨donorInv_transitioned htr invD, bankInv_unchanged hbu invB,
             donorStepOK_trans htr hsrc invD, bankStepOK_unchanged hbu⟩
  | signConsent did tid =>
    cases hres : sign_consent db did tid with
    | error err =>
      have happ : applyOp db (Op.signConsent did tid) = db := by
        simp [applyOp, opResult, hres]
      rw [happ]
      exact ⟨invD, invB, donorStepOK_refl db, bankStepOK_refl db⟩
    | ok db' =>
      have happ : applyOp db (Op.signConsent did tid) = db' := by
        simp [applyOp, opResult, hres]
      rw [happ]
      obtain ⟨heff, hbu⟩ := sign_consent_effect hres
      rcases heff with hdu | ⟨d0, _hmem, hsrc0, htr⟩
      · exact ⟨donorInv_unchanged hdu invD, bankInv_unchanged hbu invB,
               donorStepOK_unchanged hdu, bankStepOK_unchanged hbu⟩
      · have hsrc : d0.state ≠ DonorState.eligibility_decision := by
          rw [hsrc0]; decide
        exact ⟨donorInv_transitioned htr invD, bankInv_unchanged hbu invB,
               donorStepOK_trans htr hsrc invD, bankStepOK_unchanged hbu⟩
  | verifyConsent bid cid vs nt =>
    cases hres : verify_consent db bid cid vs nt with
    | error err =>
      have happ : applyOp db (Op.verifyConsent bid cid vs nt) = db := by
        simp [applyOp, opResult, hres]
      rw [happ]
      exact ⟨invD, invB, donorStepOK_refl db, bankStepOK_refl db⟩
    | ok db' =>
      have happ : applyOp db (Op.verifyConsent bid cid vs nt) = db' := by
        simp [applyOp, opResult, hres]
      rw [happ]
      obtain ⟨heff, hbu⟩ := verify_consent_effect hres
      rcases heff with hdu | ⟨d0, cb, _hmem, hsrc0, htr⟩
      · exact ⟨donorInv_unchanged hdu invD, bankInv_unchanged hbu invB,
               donorStepOK_unchanged hdu, bankStepOK_unchanged hbu⟩
      · have hsrc : d0.state ≠ DonorState.eligibility_decision := by
          rw [hsrc0]; decide
        exact ⟨donorInv_transitioned htr invD, bankInv_unchanged hbu invB,
               donorStepOK_trans htr hsrc invD, bankStepOK_unchanged hbu⟩
  | uploadTestReport bid did =>
    cases hres : upload_test_report db bid did with
    | error err =>
      have happ : applyOp db (Op.uploadTestReport bid did) = db := by
        simp [applyOp, opResult, hres]
      rw [happ]
      exact ⟨invD, invB, donorStepOK_refl db, bankStepOK_refl db⟩
    | ok db' =>
      have happ : applyOp db (Op.uploadTestReport bid did) = db' := by
        simp [applyOp, opResult, hres]
      rw [happ]
      obtain ⟨heff, hbu⟩ := upload_test_report_effect hres
      rcases heff with hdu | ⟨d0, cb, _hmem, hsrc0, htr⟩
      · exact ⟨donorInv_unchanged hdu invD, bankInv_unchanged hbu invB,
               donorStepOK_unchanged hdu, bankStepOK_unchanged hbu⟩
      · have hsrc : d0.state ≠ DonorState.eligibility_decision := by
          rw [hsrc0]; decide
        exact ⟨donorInv_transitioned htr invD, bankInv_unchanged hbu invB,
               donorStepOK_trans htr hsrc invD, bankStepOK_unchanged hbu⟩
  | makeEligibilityDecision bid did st nt =>
    cases hres : make_eligibility_decision db bid did st nt with
    | error err =>
      have happ : applyOp db (Op.makeEligibilityDecision bid did st nt) = db := by
        simp [applyOp, opResult, hres]
      rw [happ]
      exact ⟨invD, invB, donorStepOK_refl db, bankStepOK_refl db⟩
    | ok db' =>
      have happ : applyOp db (Op.makeEligibilityDecision bid did st nt) = db' := by
        simp [applyOp, opResult, hres]
      rw [happ]
      obtain ⟨⟨db₁, db₂, d0, d1, cb, _hmem, hsrc, hupd, _hsrc1, ht1, hrest⟩, hbu⟩ :=
        make_eligibility_decision_effect hres
      have invD₁ : DonorInv db₁ := donorInv_updated hupd invD
      have invD₂ : DonorInv db₂ := donorInv_transitioned ht1 invD₁
      refine ⟨?_, bankInv_unchanged hbu invB,
              donorStepOK_eligibility hupd hsrc ht1 hrest invD, bankStepOK_unchanged hbu⟩
      rcases hrest with hdu | ht2
      · exact donorInv_unchanged hdu invD₂
      · exact donorInv_transitioned ht2 invD₂
  | adminVerifyBank bid vb =>
    cases hres : admin_verify_bank db bid vb with
    | error err =>
      have happ : applyOp db (Op.adminVerifyBank bid vb) = db := by
        simp [applyOp, opResult, hres]
      rw [happ]
      exact ⟨invD, invB, donorStepOK_refl db, bankStepOK_refl db⟩
    | ok db' =>
      have happ : applyOp db (Op.adminVerifyBank bid vb) = db' := by
        simp [applyOp, opResult, hres]
      rw [happ]
      obtain ⟨⟨b0, b1, hds⟩, hdu⟩ := admin_verify_bank_effect hres
      exact ⟨donorInv_unchanged hdu invD, bankInv_directSet hds invB,
             donorStepOK_unchanged hdu, bankStepOK_directSet hds⟩
  | adminUpdateSubscription bid tier sa se =>
    cases hres : admin_update_bank_subscription db bid tier sa se with
    | error err =>
      have happ : applyOp db (Op.adminUpdateSubscription bid tier sa se) = db := by
        simp [applyOp, opResult, hres]
      rw [happ]
      exact ⟨invD, invB, donorStepOK_refl db, bankStepOK_refl db⟩
    | ok db' =>
      have happ : applyOp db (Op.adminUpdateSubscription bid tier sa se) = db' := by
        simp [applyOp, opResult, hres]
      rw [happ]
      obtain ⟨⟨b0, b1, hds⟩, hdu⟩ := admin_update_bank_subscription_effect hres
      exact ⟨donorInv_unchanged hdu invD, bankInv_directSet hds invB,
             donorStepOK_unchanged hdu, bankStepOK_directSet hds⟩

lemma donorInv_init : DonorInv initDB :=
  ⟨fun d hd => absurd hd (List.not_mem_nil d),
   fun h hh => absurd hh (List.not_mem_nil h),
   List.Pairwise.nil,
   fun d hd => absurd hd (List.not_mem_nil d),
   fun d hd => absurd hd (List.not_mem_nil d),
   fun h hh => absurd hh (List.not_mem_nil h)⟩

lemma bankInv_init : BankInv initDB :=
  ⟨fun b hb => absurd hb (List.not_mem_nil b),
   fun h hh => absurd hh (List.not_mem_nil h)⟩

lemma runOps_cons (db : DB) (op : Op) (t : List Op) :
    runOps db (op :: t) = runOps (applyOp db op) t := rfl

lemma runOps_facts (ops : List Op) (db : DB) (invD : DonorInv db) (invB : BankInv db) :
    DonorInv (runOps db ops) ∧ BankInv (runOps db ops) ∧
    DonorStepOK db (runOps db ops) ∧ BankStepOK db (runOps db ops) := by
  induction ops generalizing db with
  | nil => exact ⟨invD, invB, donorStepOK_refl db, bankStepOK_refl db⟩
  | cons op t ih =>
    obtain ⟨invD', invB', dso, bso⟩ := step_facts db op invD invB
    obtain ⟨i1, i2, s1, s2⟩ := ih (applyOp db op) invD' invB'
    rw [runOps_cons]
    exact ⟨i1, i2, donorStepOK_comp dso s1, bankStepOK_comp bso s2⟩

lemma reachable_facts (ops : List Op) :
    DonorInv (runOps initDB ops) ∧ BankInv (runOps initDB ops) :=
  ⟨(runOps_facts ops initDB donorInv_init bankInv_init).1,
   (runOps_facts ops initDB donorInv_init bankInv_init).2.1⟩

/-- **C2**: if a transition request fails — the transition function raises
because the proposed edge is not in the transition graph — then neither the
entity state nor the state-history collection changes.  The transition
functions reject exactly the illegal edges, before any write, and an
erroring request leaves the whole store untouched (before/after snapshots
are equal). -/
theorem failed_transition_preserves_state :
    (∀ (db : DB) (donor : Donor) (ns : DonorState) (cb : Nat) (role : String)
       (r : Option String),
      can_transition_donor_state donor.state ns = false →
        transition_donor_state db donor ns cb role r =
          Except.error "Invalid state transition") ∧
    (∀ (db : DB) (bank : Bank) (ns : BankState) (cb : Nat) (r : Option String),
      can_transition_bank_state bank.state ns = false →
        transition_bank_state db bank ns cb r =
          Except.error "Invalid state transition") ∧
    (∀ (db : DB) (op : Op) (e : HErr),
      opResult db op = Except.error e → applyOp db op = db) := by
  refine ⟨?_, ?_, ?_⟩
  · intro db donor ns cb role r h
    simp [transition_donor_state, h]
  · intro db bank ns cb r h
    simp [transition_bank_state, h]
  · intro db op e h
    simp [applyOp, h]

/-- Witness for C2: an illegal donor edge is rejected with the exact error,
and a failing request (account creation with no matching lead) leaves the
store untouched. -/
theorem failed_transition_preserves_state_witness :
    transition_donor_state initDB (donorFixture DonorState.donor_onboarded)
        DonorState.visitor 1 "donor" none = Except.error "Invalid state transition" ∧
    applyOp initDB (Op.createAccount "nobody@example.com" "pw") = initDB :=
  ⟨failed_transition_preserves_state.1 initDB (donorFixture DonorState.donor_onboarded)
      DonorState.visitor 1 "donor" none (by decide),
   failed_transition_preserves_state.2.2 initDB (Op.createAccount "nobody@example.com" "pw")
      ⟨404, "Lead not found. Please create a lead first."⟩ (by rfl)⟩

/-- **C1**: consent verification auto-advances the donor to
CONSENT_VERIFIED in the same call if and only if, after the verification
is recorded (the counts are taken over the updated consent table, which is
the resulting store's table), the donor has at least 4 consents in total,
at least 4 of them VERIFIED, and the donor is currently in
CONSENT_PENDING; otherwise the donor row and its history are untouched.
In particular 3 verified consents never advance the donor, and the 4th
verification triggers the advance with no further call. -/
theorem verify_consent_quorum_auto_advance
    (db db' : DB) (bid cid : Nat) (vs : ConsentStatus) (nt : Option String)
    (bank : Bank) (consent : DonorConsent) (donor : Donor)
    (hbank : get_subscribed_bank db bid = .ok bank)
    (hconsent : db.consents.find? (fun c => c.id == cid) = some consent)
    (hdonor : db.donors.find? (fun d => d.id == consent.donor_id &&
        d.bank_id == some bank.id) = some donor)
    (hok : verify_consent db bid cid vs nt = .ok db') :
    (consents_total_count db'.consents donor.id ≥ 4 ∧
     verified_consents_count db'.consents donor.id ≥ 4 ∧
     donor.state = DonorState.consent_pending →
       db'.donors = db.donors.map (fun x => if x.id == donor.id then
         { donor with state := DonorState.consent_verified } else x) ∧
       db'.donor_history = db.donor_history ++
         [{ donor_id := donor.id, from_state := some donor.state
          , to_state := DonorState.consent_verified, changed_by := bank.id
          , changed_by_role := "bank", reason := some "All consents verified by bank" }]) ∧
    (¬(consents_total_count db'.consents donor.id ≥ 4 ∧
       verified_consents_count db'.consents donor.id ≥ 4 ∧
       donor.state = DonorState.consent_pending) →
       db'.donors = db.donors ∧ db'.donor_history = db.donor_history) := by
  unfold verify_consent at hok
  rw [hbank] at hok
  dsimp only at hok
  rw [hconsent] at hok
  dsimp only at hok
  rw [hdonor] at hok
  dsimp only at hok
  split at hok
  next hq =>
    split at hok
    next hst =>
      rw [beq_iff_eq] at hst
      have hedge : can_transition_donor_state donor.state DonorState.consent_verified = true := by
        rw [hst]; decide
      unfold transition_donor_state at hok
      rw [if_pos hedge] at hok
      dsimp only at hok
      cases hok
      rw [Bool.and_eq_true] at hq
      refine ⟨fun _ => ⟨rfl, rfl⟩, fun hn => absurd ?_ hn⟩
      exact ⟨of_decide_eq_true hq.1, of_decide_eq_true hq.2, hst⟩
    next hst =>
      cases hok
      refine ⟨fun hf => absurd ?_ hst, fun _ => ⟨rfl, rfl⟩⟩
      rw [hf.2.2]
      simp
  next hq =>
    cases hok
    refine ⟨fun hf => absurd ?_ hq, fun _ => ⟨rfl, rfl⟩⟩
    rw [Bool.and_eq_true]
    exact ⟨decide_eq_true hf.1, decide_eq_true hf.2.1⟩

/-- Witness for C1: against `dbQuorum` (3 verified, 1 signed) the fourth
verification makes the counts 4 and 4 and advances donor 1, in the same
call. -/
theorem verify_consent_quorum_auto_advance_witness :
    verify_consent dbQuorum 1 4 ConsentStatus.verified none = Except.ok dbQuorumPost ∧
    (consents_total_count dbQuorumPost.consents 1 ≥ 4 ∧
     verified_consents_count dbQuorumPost.consents 1 ≥ 4 ∧
     (donorFixture DonorState.consent_pending).state = DonorState.consent_pending) ∧
    dbQuorumPost.donors = dbQuorum.donors.map (fun x => if x.id == 1 then
      { donorFixture DonorState.consent_pending with
        state := DonorState.consent_verified } else x) :=
  ⟨rfl, ⟨by decide, by decide, rfl⟩,
   ((verify_consent_quorum_auto_advance dbQuorum dbQuorumPost 1 4
      ConsentStatus.verified none bankFixture (consentFixture 4 ConsentStatus.signed)
      (donorFixture DonorState.consent_pending) rfl rfl rfl rfl).1
      ⟨by decide, by decide, rfl⟩).1⟩

/-- Counterexample for **C9**: on the concrete fourth verification the
auto-advance history row is attributed to the verifying bank (role
`"bank"`, `changed_by` = bank 1), not to a system actor, so the claim as
stated is false. -/
theorem quorum_advance_not_system_cex :
    (verify_consent dbQuorum 1 4 ConsentStatus.verified none).toOption.map
        (fun db' => db'.donor_history.getLast?.map
          (fun h => (h.changed_by_role, h.changed_by)))
      = some (some ("bank", 1)) ∧ ("bank" : String) ≠ "system" :=
  ⟨rfl, by decide⟩

/-- **C9** (amended): whenever the consent-quorum auto-advance fires
(donor in CONSENT_PENDING reaching at least 4 total and 4 verified
consents), the history row recorded for CONSENT_PENDING to
CONSENT_VERIFIED is attributed to the **bank that performed the
verification** (`changed_by` = the bank id, `changed_by_role` = "bank"),
not to a system actor. -/
theorem quorum_advance_attributed_to_bank
    (db db' : DB) (bid cid : Nat) (vs : ConsentStatus) (nt : Option String)
    (bank : Bank) (consent : DonorConsent) (donor : Donor)
    (hbank : get_subscribed_bank db bid = .ok bank)
    (hconsent : db.consents.find? (fun c => c.id == cid) = some consent)
    (hdonor : db.donors.find? (fun d => d.id == consent.donor_id &&
        d.bank_id == some bank.id) = some donor)
    (hok : verify_consent db bid cid vs nt = .ok db')
    (hfired : consents_total_count db'.consents donor.id ≥ 4 ∧
      verified_consents_count db'.consents donor.id ≥ 4 ∧
      donor.state = DonorState.consent_pending) :
    db'.donor_history = db.donor_history ++
      [{ donor_id := donor.id, from_state := some DonorState.consent_pending
       , to_state := DonorState.consent_verified, changed_by := bank.id
       , changed_by_role := "bank", reason := some "All consents verified by bank" }] ∧
    ("bank" : String) ≠ "system" := by
  unfold verify_consent at hok
  rw [hbank] at hok
  dsimp only at hok
  rw [hconsent] at hok
  dsimp only at hok
  rw [hdonor] at hok
  dsimp only at hok
  split at hok
  next hq =>
    split at hok
    next hst =>
      rw [beq_iff_eq] at hst
      have hedge : can_transition_donor_state donor.state DonorState.consent_verified = true := by
        rw [hst]; decide
      unfold transition_donor_state at hok
      rw [if_pos hedge] at hok
      dsimp only at hok
      cases hok
      refine ⟨?_, by decide⟩
      rw [← hst]
    next hst =>
      exfalso
      apply hst
      rw [hfired.2.2]
      simp
  next hq =>
    exfalso
    apply hq
    cases hok
    rw [Bool.and_eq_true]
    exact ⟨decide_eq_true hfired.1, decide_eq_true hfired.2.1⟩

/-- Witness for the amended C9: the concrete fourth verification appends
exactly the bank-attributed history row. -/
theorem quorum_advance_attributed_to_bank_witness :
    dbQuorumPost.donor_history = dbQuorum.donor_history ++
      [{ donor_id := 1, from_state := some DonorState.consent_pending
       , to_state := DonorState.consent_verified, changed_by := 1
       , changed_by_role := "bank", reason := some "All consents verified by bank" }] ∧
    ("bank" : String) ≠ "system" :=
  quorum_advance_attributed_to_bank dbQuorum dbQuorumPost 1 4
    ConsentStatus.verified none bankFixture (consentFixture 4 ConsentStatus.signed)
    (donorFixture DonorState.consent_pending) rfl rfl rfl rfl
    ⟨by decide, by decide, rfl⟩

/-- **C5**: for a donor in COUNSELING_REQUESTED with zero previously
signed consents, successfully signing the first consent (signed count 0 to
1) creates the SIGNED consent row and advances the donor to
CONSENT_PENDING in the same call; a successful further signature by a
donor whose state has already advanced (CONSENT_PENDING) leaves the donor
state and history unchanged — the advance is idempotent. -/
theorem sign_consent_first_signature
    (db db' : DB) (did tid : Nat) (donor : Donor)
    (hfind : db.findDonor did = some donor)
    (hok : sign_consent db did tid = .ok db') :
    (donor.state = DonorState.counseling_requested ∧
     signed_consents_count db.consents donor.id = 0 →
       db'.donors = db.donors.map (fun x => if x.id == donor.id then
         { donor with state := DonorState.consent_pending } else x) ∧
       db'.donor_history = db.donor_history ++
         [{ donor_id := donor.id, from_state := some donor.state
          , to_state := DonorState.consent_pending, changed_by := donor.id
          , changed_by_role := "donor", reason := some "Started signing consent forms" }] ∧
       db'.consents = db.consents ++
         [{ id := db.nextConsentId, donor_id := donor.id, template_id := tid
          , status := ConsentStatus.signed }]) ∧
    (donor.state = DonorState.consent_pending →
       db'.donors = db.donors ∧ db'.donor_history = db.donor_history ∧
       db'.consents = db.consents ++
         [{ id := db.nextConsentId, donor_id := donor.id, template_id := tid
          , status := ConsentStatus.signed }]) := by
  unfold sign_consent get_current_donor at hok
  rw [hfind] at hok
  dsimp only at hok
  split at hok
  · exact Except.noConfusion hok
  next hstate =>
    split at hok
    · exact Except.noConfusion hok
    next _t htmpl =>
      split at hok
      · exact Except.noConfusion hok
      next hdup =>
        split at hok
        next hfire =>
          rw [Bool.and_eq_true] at hfire
          obtain ⟨h1, h2⟩ := hfire
          rw [beq_iff_eq] at h1
          have hedge : can_transition_donor_state donor.state DonorState.consent_pending = true := by
            rw [h1]; decide
          unfold transition_donor_state at hok
          rw [if_pos hedge] at hok
          dsimp only at hok
          cases hok
          refine ⟨fun _ => ⟨rfl, rfl, rfl⟩, fun hcp => ?_⟩
          exact absurd (h1.symm.trans hcp) (by decide)
        next hnofire =>
          cases hok
          refine ⟨fun hf => ?_, fun _ => ⟨rfl, rfl, rfl⟩⟩
          exfalso
          apply hnofire
          rw [Bool.and_eq_true]
          refine ⟨?_, ?_⟩
          · rw [hf.1]; simp
          · rw [hf.2]; simp

/-- Witness for C5: in `dbSignFirst` (donor in COUNSELING_REQUESTED, no
consents) the first signature fires the transition to CONSENT_PENDING and
records the SIGNED consent. -/
theorem sign_consent_first_signature_witness :
    sign_consent dbSignFirst 1 1 = Except.ok dbSignFirstPost ∧
    ((donorFixture DonorState.counseling_requested).state =
        DonorState.counseling_requested ∧
     signed_consents_count dbSignFirst.consents 1 = 0) ∧
    dbSignFirstPost.donors = dbSignFirst.donors.map (fun x => if x.id == 1 then
      { donorFixture DonorState.counseling_requested with
        state := DonorState.consent_pending } else x) :=
  ⟨rfl, ⟨rfl, by decide⟩,
   ((sign_consent_first_signature dbSignFirst dbSignFirstPost 1 1
      (donorFixture DonorState.counseling_requested) rfl rfl).1 ⟨rfl, by decide⟩).1⟩

/-- **C10**: `sign_consent` also accepts a donor whose state is
ACCOUNT_CREATED (besides COUNSELING_REQUESTED and CONSENT_PENDING): it
creates a SIGNED consent row and leaves the donor state and history
unchanged, even though the service-layer predicate `can_sign_consent`
admits only COUNSELING_REQUESTED and CONSENT_PENDING. -/
theorem sign_consent_accepts_account_created
    (db db' : DB) (did tid : Nat) (donor : Donor)
    (hfind : db.findDonor did = some donor)
    (hstate : donor.state = DonorState.account_created)
    (hok : sign_consent db did tid = .ok db') :
    db'.donors = db.donors ∧ db'.donor_history = db.donor_history ∧
    db'.consents = db.consents ++
      [{ id := db.nextConsentId, donor_id := donor.id, template_id := tid
       , status := ConsentStatus.signed }] ∧
    can_sign_consent donor = false := by
  unfold sign_consent get_current_donor at hok
  rw [hfind] at hok
  dsimp only at hok
  split at hok
  · exact Except.noConfusion hok
  next hstok =>
    split at hok
    · exact Except.noConfusion hok
    next _t htmpl =>
      split at hok
      · exact Except.noConfusion hok
      next hdup =>
        split at hok
        next hfire =>
          exfalso
          rw [Bool.and_eq_true] at hfire
          have := hfire.1
          rw [beq_iff_eq] at this
          exact absurd (hstate.symm.trans this) (by decide)
        next hnofire =>
          cases hok
          refine ⟨rfl, rfl, rfl, ?_⟩
          simp [can_sign_consent, hstate]

/-- Witness for C10: against `dbSignAccount` (donor in ACCOUNT_CREATED)
signing succeeds, adds a SIGNED consent row, and the donor row is
untouched, while `can_sign_consent` rejects the state. -/
theorem sign_consent_accepts_account_created_witness :
    ((sign_consent dbSignAccount 1 1).toOption.getD initDB).donors
      = dbSignAccount.donors ∧
    can_sign_consent (donorFixture DonorState.account_created) = false :=
  ⟨(sign_consent_accepts_account_created dbSignAccount
      ((sign_consent dbSignAccount 1 1).toOption.getD initDB) 1 1
      (donorFixture DonorState.account_created) rfl rfl rfl).1,
   (sign_consent_accepts_account_created dbSignAccount
      ((sign_consent dbSignAccount 1 1).toOption.getD initDB) 1 1
      (donorFixture DonorState.account_created) rfl rfl rfl).2.2.2⟩

/-- Counterexample for **C6**: bank verification is not unconditional.
After an admin has verified bank 1 (so `verified_by` is "admin-1"), a
second verification request is rejected with 400 "Bank is already
verified" and sets nothing — `verified_by` keeps its old value instead of
becoming "admin-2". -/
theorem verify_bank_unconditional_cex :
    admin_verify_bank (runOps initDB opsBankPreJump) 1 "admin-2"
      = Except.error ⟨400, "Bank is already verified"⟩ ∧
    ((runOps initDB opsBankPreJump).findBank 1).map (fun b => b.verified_by)
      = some (some "admin-1") :=
  ⟨rfl, rfl⟩

/-- **C6** (amended): for every bank that is **not already verified**
(`is_verified = false`), `verify_bank` sets `is_verified`, `verified_at`
and `verified_by`, and advances `state` to VERIFIED exactly when the
current state is VERIFICATION_PENDING, leaving `state` unchanged in any
other state; a bank whose `is_verified` flag is already set is rejected
with 400 "Bank is already verified" and nothing is written. -/
theorem verify_bank_behavior :
    (∀ (db : DB) (bid : Nat) (vb : String) (bank : Bank),
      db.findBank bid = some bank → bank.is_verified = false →
        ∃ b1, admin_verify_bank db bid vb = .ok (db.updateBank bid b1) ∧
          b1.is_verified = true ∧ b1.verified_at = some db.now ∧
          b1.verified_by = some vb ∧
          (bank.state = BankState.verification_pending → b1.state = BankState.verified) ∧
          (bank.state ≠ BankState.verification_pending → b1.state = bank.state)) ∧
    (∀ (db : DB) (bid : Nat) (vb : String) (bank : Bank),
      db.findBank bid = some bank → bank.is_verified = true →
        admin_verify_bank db bid vb = Except.error ⟨400, "Bank is already verified"⟩) := by
  constructor
  · intro db bid vb bank hfind hnv
    have heq : admin_verify_bank db bid vb = .ok (db.updateBank bid
        (if bank.state == BankState.verification_pending then
          { bank with
            is_verified := true,
            verified_at := some db.now,
            verified_by := some vb,
            state := BankState.verified }
        else
          { bank with
            is_verified := true,
            verified_at := some db.now,
            verified_by := some vb })) := by
      unfold admin_verify_bank
      rw [hfind]
      dsimp only
      rw [if_neg (by simp [hnv])]
    refine ⟨_, heq, by split <;> rfl, by split <;> rfl, by split <;> rfl, ?_, ?_⟩
    · intro h
      rw [if_pos (by rw [h]; rfl)]
    · intro h
      rw [if_neg (by simp [h])]
  · intro db bid vb bank hfind hv
    unfold admin_verify_bank
    rw [hfind]
    dsimp only
    rw [if_pos hv]

/-- Witness for the amended C6: an unverified bank in VERIFICATION_PENDING
is verified successfully, and the already-verified bank of the
counterexample store is rejected. -/
theorem verify_bank_behavior_witness :
    (admin_verify_bank (runOps initDB opsCertOnly) 1 "admin-1").isOk = true ∧
    admin_verify_bank (runOps initDB opsBankPreJump) 1 "admin-2"
      = Except.error ⟨400, "Bank is already verified"⟩ := by
  constructor
  · obtain ⟨b1, heq, _⟩ := verify_bank_behavior.1 (runOps initDB opsCertOnly) 1 "admin-1"
      { id := 1, email := "bank@example.com", name := "Bank B"
      , state := BankState.verification_pending, is_verified := false
      , certification_documents := ["cert.pdf"] } rfl rfl
    rw [heq]
    rfl
  · exact verify_bank_behavior.2 (runOps initDB opsBankPreJump) 1 "admin-2"
      { id := 1, email := "bank@example.com", name := "Bank B"
      , state := BankState.verified, is_verified := true
      , verified_at := some 0, verified_by := some "admin-1"
      , certification_documents := ["cert.pdf"] } rfl rfl

lemma scoped_find_none (db : DB) (donor : Donor) (bid : Nat)
    (hl : db.donors.Pairwise (fun a b => a.id ≠ b.id))
    (hd : donor ∈ db.donors) (hne : donor.bank_id ≠ some bid) :
    db.donors.find? (fun d => d.id == donor.id && d.bank_id == some bid) = none := by
  rw [List.find?_eq_none]
  intro x hx
  by_cases hxi : x.id = donor.id
  · have hxe : x = donor :=
      mem_distinct_id_eq (fun d => d.id) db.donors hl x donor hx hd hxi
    subst hxe
    simp [hne]
  · simp [hxi]

/-- Counterexample for **C7**: an ownership mismatch on `upload_test_report`
yields 404 "Donor not found", not an Unauthorized error.  In `dbMismatch`
donor 1 belongs to bank 2, bank 1 is an operational subscribed bank, yet
bank 1's upload request is answered with NotFound. -/
theorem ownership_mismatch_unauthorized_cex :
    get_subscribed_bank dbMismatch 1 = Except.ok bankFixture ∧
    (dbMismatch.findDonor 1).map (fun d => d.bank_id) = some (some 2) ∧
    upload_test_report dbMismatch 1 1 = Except.error ⟨404, "Donor not found"⟩ :=
  ⟨rfl, rfl, rfl⟩

/-- **C7** (amended): a bank-actor request targeting a donor owned by a
different bank never changes the store, but the error split is uneven:
`verify_consent` answers 403 "Not authorized to verify this consent",
while `upload_test_report` answers 404 "Donor not found" because its donor
lookup is scoped to the acting bank. -/
theorem ownership_mismatch_behavior :
    (∀ (db : DB) (bid cid : Nat) (vs : ConsentStatus) (nts : Option String)
       (bank : Bank) (consent : DonorConsent) (donor : Donor),
      get_subscribed_bank db bid = .ok bank →
      db.consents.find? (fun c => c.id == cid) = some consent →
      db.donors.Pairwise (fun a b => a.id ≠ b.id) →
      donor ∈ db.donors → donor.id = consent.donor_id →
      donor.bank_id ≠ some bank.id →
      verify_consent db bid cid vs nts
          = Except.error ⟨403, "Not authorized to verify this consent"⟩ ∧
        applyOp db (Op.verifyConsent bid cid vs nts) = db) ∧
    (∀ (db : DB) (bid did : Nat) (bank : Bank) (donor : Donor),
      get_subscribed_bank db bid = .ok bank →
      db.donors.Pairwise (fun a b => a.id ≠ b.id) →
      donor ∈ db.donors → donor.id = did →
      donor.bank_id ≠ some bank.id →
      upload_test_report db bid did = Except.error ⟨404, "Donor not found"⟩ ∧
        applyOp db (Op.uploadTestReport bid did) = db) := by
  constructor
  · intro db bid cid vs nts bank consent donor hsub hcon hl hd hid hne
    have herr : verify_consent db bid cid vs nts
        = Except.error ⟨403, "Not authorized to verify this consent"⟩ := by
      unfold verify_consent
      rw [hsub]
      dsimp only
      rw [hcon]
      dsimp only
      rw [← hid, scoped_find_none db donor bank.id hl hd hne]
    refine ⟨herr, ?_⟩
    unfold applyOp opResult
    dsimp only
    rw [herr]
  · intro db bid did bank donor hsub hl hd hid hne
    have herr : upload_test_report db bid did
        = Except.error ⟨404, "Donor not found"⟩ := by
      unfold upload_test_report
      rw [hsub]
      dsimp only
      rw [← hid, scoped_find_none db donor bank.id hl hd hne]
    refine ⟨herr, ?_⟩
    unfold applyOp opResult
    dsimp only
    rw [herr]

/-- Witness for the amended C7 at the `dbMismatch` store. -/
theorem ownership_mismatch_behavior_witness :
    (verify_consent dbMismatch 1 1 ConsentStatus.verified none
        = Except.error ⟨403, "Not authorized to verify this consent"⟩ ∧
      applyOp dbMismatch (Op.verifyConsent 1 1 ConsentStatus.verified none) = dbMismatch) ∧
    (upload_test_report dbMismatch 1 1 = Except.error ⟨404, "Donor not found"⟩ ∧
      applyOp dbMismatch (Op.uploadTestReport 1 1) = dbMismatch) := by
  constructor
  · exact ownership_mismatch_behavior.1 dbMismatch 1 1 ConsentStatus.verified none
      bankFixture (consentFixture 1 ConsentStatus.signed)
      { id := 1, email := "donor@example.com", bank_id := some 2
      , state := DonorState.consent_verified }
      rfl rfl (by decide) (by decide) rfl (by decide)
  · exact ownership_mismatch_behavior.2 dbMismatch 1 1 bankFixture
      { id := 1, email := "donor@example.com", bank_id := some 2
      , state := DonorState.consent_verified }
      rfl (by decide) (by decide) rfl (by decide)

/-- Counterexample for **C3**: the bank history of the admin-assisted
onboarding run is not a consecutive chain (the adminside verification
writes `state` without a history row, so the following row starts at
VERIFIED while the previous one ended at VERIFICATION_PENDING); and a
donor's entry 0 starts at BANK_SELECTED — the state at row creation — not
at the chain's initial state VISITOR and not at null. -/
theorem history_chain_cex :
    bankConsecChain (bankHistoryFor (runOps initDB opsBankAdmin) 1) = false ∧
    (donorHistoryFor (runOps initDB opsLeadFlow) 1).head?.map (fun h => h.from_state)
      = some (some DonorState.bank_selected) ∧
    DonorState.bank_selected ≠ DonorState.visitor :=
  ⟨rfl, rfl, by decide⟩

/-- **C3** (amended): in every reachable store, each donor's history rows
in commit order form a chain whose entry 0 starts at BANK_SELECTED (the
state the row is created in), each row is a legal graph edge, consecutive
rows link up, and the stored `state` is the chain's end; every bank
history row is a legal graph edge, but the bank rows need not link up
consecutively, because the adminside endpoints write `state` with no
history row. -/
theorem history_chain_reachable (ops : List Op) :
    (∀ d ∈ (runOps initDB ops).donors,
      donorChainFrom DonorState.bank_selected
          (donorHistoryFor (runOps initDB ops) d.id) = true ∧
        d.state = donorChainEnd DonorState.bank_selected
          (donorHistoryFor (runOps initDB ops) d.id)) ∧
    (∀ h ∈ (runOps initDB ops).donor_history, donorEdgeRow h = true) ∧
    (∀ h ∈ (runOps initDB ops).bank_history, bankEdgeRow h = true) := by
  obtain ⟨invD, invB⟩ := reachable_facts ops
  exact ⟨fun d hd => ⟨invD.chain d hd, invD.final d hd⟩, invD.edges, invB.edges⟩

/-- Witness for the amended C3 at the lead-creation run. -/
theorem history_chain_reachable_witness :
    donorChainFrom DonorState.bank_selected
        (donorHistoryFor (runOps initDB opsLeadFlow) 1) = true ∧
      DonorState.lead_created = donorChainEnd DonorState.bank_selected
        (donorHistoryFor (runOps initDB opsLeadFlow) 1) := by
  have h := (history_chain_reachable opsLeadFlow).1
    { id := 1, email := "donor@example.com", bank_id := some 1
    , state := DonorState.lead_created } (by decide)
  exact ⟨h.1, h.2⟩

/-- Counterexample for **C4**: one committed request moves bank 1 from
VERIFIED straight to SUBSCRIBED_ONBOARDED, which is not an edge of the
bank transition graph — the adminside subscription endpoint skips
SUBSCRIPTION_PENDING. -/
theorem monotone_one_edge_cex :
    bankStateOf (runOps initDB opsBankPreJump) 1 = some BankState.verified ∧
    bankStateOf (applyOp (runOps initDB opsBankPreJump)
        (Op.adminUpdateSubscription 1 "gold" 0 9)) 1
      = some BankState.subscribed_onboarded ∧
    can_transition_bank_state BankState.verified BankState.subscribed_onboarded = false :=
  ⟨rfl, rfl, by decide⟩

/-- **C4** (amended): over every reachable store and every further
request, entity states only move forward — the chain index of every donor
and every bank never decreases across a committed request — and every
history row records a single legal graph edge; but the stored state does
not always advance one edge at a time, because the adminside endpoints
write `state` directly and can skip a state (see the counterexample). -/
theorem monotone_forward (ops : List Op) (op : Op) :
    (∀ i s, donorStateOf (runOps initDB ops) i = some s →
      ∃ s', donorStateOf (applyOp (runOps initDB ops) op) i = some s' ∧
        donorIdx s ≤ donorIdx s') ∧
    (∀ i s, bankStateOf (runOps initDB ops) i = some s →
      ∃ s', bankStateOf (applyOp (runOps initDB ops) op) i = some s' ∧
        bankIdx s ≤ bankIdx s') ∧
    (∀ h ∈ (applyOp (runOps initDB ops) op).donor_history, donorEdgeRow h = true) ∧
    (∀ h ∈ (applyOp (runOps initDB ops) op).bank_history, bankEdgeRow h = true) := by
  obtain ⟨invD, invB⟩ := reachable_facts ops
  obtain ⟨invD2, invB2, dso, bso⟩ := step_facts (runOps initDB ops) op invD invB
  exact ⟨fun i s h => (dso i s h).imp (fun s' hs => ⟨hs.1, hs.2.1⟩),
    bso, invD2.edges, invB2.edges⟩

/-- Witness for the amended C4: the skipping request of the counterexample
still moves bank 1 forward in chain index. -/
theorem monotone_forward_witness :
    ∃ s', bankStateOf (applyOp (runOps initDB opsBankPreJump)
        (Op.adminUpdateSubscription 1 "gold" 0 9)) 1 = some s' ∧
      bankIdx BankState.verified ≤ bankIdx s' :=
  (monotone_forward opsBankPreJump (Op.adminUpdateSubscription 1 "gold" 0 9)).2.1 1
    BankState.verified rfl

lemma findDonor_map_update {db db' : DB} (k : Nat) {d0 d1 : Donor}
    (hfind : db.findDonor k = some d0) (hid : d1.id = k)
    (hd : db'.donors = db.donors.map (fun x => if x.id == k then d1 else x)) :
    db'.findDonor k = some d1 := by
  unfold DB.findDonor at hfind ⊢
  have hk : d0.id = k := by simpa using List.find?_some hfind
  rw [hd, find?_map_update (fun y => y.id) db.donors d1 k hid k, hfind]
  simp [hk]

/-- **C8**: for a donor in TESTS_PENDING owned by the acting subscribed
bank, `make_eligibility_decision` records the supplied status and notes
and moves the donor to ELIGIBILITY_DECISION, continuing to DONOR_ONBOARDED
exactly when the recorded status is approved; and a donor parked in
ELIGIBILITY_DECISION (rejected) is never moved out of it by any further
sequence of requests. -/
theorem eligibility_decision_behavior :
    (∀ (db : DB) (bid did : Nat) (st : EligibilityStatus) (nts : Option String)
       (bank : Bank) (donor : Donor),
      get_subscribed_bank db bid = .ok bank →
      db.donors.find? (fun d => d.id == did && d.bank_id == some bank.id) = some donor →
      donor.state = DonorState.tests_pending →
      db.donors.Pairwise (fun a b => a.id ≠ b.id) →
      ∃ db', make_eligibility_decision db bid did st nts = .ok db' ∧
        (db'.findDonor donor.id).map (fun d => (d.eligibility_status, d.eligibility_notes))
          = some (st, nts) ∧
        donorStateOf db' donor.id
          = some (if st = EligibilityStatus.approved
                  then DonorState.donor_onboarded
                  else DonorState.eligibility_decision)) ∧
    (∀ (ops₁ ops₂ : List Op) (i : Nat),
      donorStateOf (runOps initDB ops₁) i = some DonorState.eligibility_decision →
      donorStateOf (runOps (runOps initDB ops₁) ops₂) i
        = some DonorState.eligibility_decision) := by
  constructor
  · intro db bid did st nts bank donor hsub hscope hst hdist
    have hmem : donor ∈ db.donors := List.mem_of_find?_eq_some hscope
    have hf0 : db.findDonor donor.id = some donor := by
      have h := find?_mem_distinct (fun d => d.id) db.donors hdist donor hmem
      exact h
    have hedge1 : can_transition_donor_state donor.state DonorState.eligibility_decision = true := by
      rw [hst]
      decide
    by_cases hap : st = EligibilityStatus.approved
    · have heq : make_eligibility_decision db bid did st nts = .ok
          (donorTransDB
            (donorTransDB
              (db.updateDonor donor.id
                { donor with eligibility_status := st, eligibility_notes := nts })
              { donor with eligibility_status := st, eligibility_notes := nts }
              DonorState.eligibility_decision bank.id "bank"
              (some ("Eligibility decision: " ++ st.value)))
            { donor with eligibility_status := st, eligibility_notes := nts
                       , state := DonorState.eligibility_decision }
            DonorState.donor_onboarded bank.id "bank"
            (some "Donor approved and onboarded")) := by
        unfold make_eligibility_decision
        rw [hsub]
        dsimp only
        rw [hscope]
        dsimp only
        rw [if_neg (by simp [hst])]
        unfold transition_donor_state
        rw [if_pos hedge1]
        dsimp only
        rw [if_pos (by simp [hap] :
          (st == EligibilityStatus.approved) = true)]
        rw [if_pos (show can_transition_donor_state DonorState.eligibility_decision
          DonorState.donor_onboarded = true from rfl)]
        dsimp only
        rfl
      refine ⟨_, heq, ?_, ?_⟩
      all_goals {
        have hf1 : (db.updateDonor donor.id
            { donor with eligibility_status := st, eligibility_notes := nts }).findDonor donor.id
            = some { donor with eligibility_status := st, eligibility_notes := nts } := by
          apply findDonor_map_update donor.id hf0 <;> rfl
        have hf2 : (donorTransDB
            (db.updateDonor donor.id
              { donor with eligibility_status := st, eligibility_notes := nts })
            { donor with eligibility_status := st, eligibility_notes := nts }
            DonorState.eligibility_decision bank.id "bank"
            (some ("Eligibility decision: " ++ st.value))).findDonor donor.id
            = some { donor with eligibility_status := st, eligibility_notes := nts
                              , state := DonorState.eligibility_decision } := by
          apply findDonor_map_update donor.id hf1 <;> rfl
        have hf3 : (donorTransDB
            (donorTransDB
              (db.updateDonor donor.id
                { donor with eligibility_status := st, eligibility_notes := nts })
              { donor with eligibility_status := st, eligibility_notes := nts }
              DonorState.eligibility_decision bank.id "bank"
              (some ("Eligibility decision: " ++ st.value)))
            { donor with eligibility_status := st, eligibility_notes := nts
                       , state := DonorState.eligibility_decision }
            DonorState.donor_onboarded bank.id "bank"
            (some "Donor approved and onboarded")).findDonor donor.id
            = some { donor with eligibility_status := st, eligibility_notes := nts
                              , state := DonorState.donor_onboarded } := by
          apply findDonor_map_update donor.id hf2 <;> rfl
        first
        | (rw [hf3]; rfl)
        | (unfold donorStateOf; rw [hf3, if_pos hap]; rfl)
      }
    · have heq : make_eligibility_decision db bid did st nts = .ok
          (donorTransDB
            (db.updateDonor donor.id
              { donor with eligibility_status := st, eligibility_notes := nts })
            { donor with eligibility_status := st, eligibility_notes := nts }
            DonorState.eligibility_decision bank.id "bank"
            (some ("Eligibility decision: " ++ st.value))) := by
        unfold make_eligibility_decision
        rw [hsub]
        dsimp only
        rw [hscope]
        dsimp only
        rw [if_neg (by simp [hst])]
        unfold transition_donor_state
        rw [if_pos hedge1]
        dsimp only
        rw [if_neg (by simp [hap] :
          ¬(st == EligibilityStatus.approved) = true)]
        rfl
      refine ⟨_, heq, ?_, ?_⟩
      all_goals {
        have hf1 : (db.updateDonor donor.id
            { donor with eligibility_status := st, eligibility_notes := nts }).findDonor donor.id
            = some { donor with eligibility_status := st, eligibility_notes := nts } := by
          apply findDonor_map_update donor.id hf0 <;> rfl
        have hf2 : (donorTransDB
            (db.updateDonor donor.id
              { donor with eligibility_status := st, eligibility_notes := nts })
            { donor with eligibility_status := st, eligibility_notes := nts }
            DonorState.eligibility_decision bank.id "bank"
            (some ("Eligibility decision: " ++ st.value))).findDonor donor.id
            = some { donor with eligibility_status := st, eligibility_notes := nts
                              , state := DonorState.eligibility_decision } := by
          apply findDonor_map_update donor.id hf1 <;> rfl
        first
        | (rw [hf2]; rfl)
        | (unfold donorStateOf; rw [hf2, if_neg hap]; rfl)
      }
  · intro ops₁ ops₂ i h
    obtain ⟨invD, invB⟩ := reachable_facts ops₁
    obtain ⟨_, _, dso, _⟩ := runOps_facts ops₂ (runOps initDB ops₁) invD invB
    obtain ⟨s', hs', _, hfreeze⟩ := dso i _ h
    rw [hs', hfreeze rfl]

/-- Witness for C8: the rejected decision against `dbTests` parks donor 1
in ELIGIBILITY_DECISION with the status and notes recorded, and the donor
of the full happy-path run stays in ELIGIBILITY_DECISION across a further
request. -/
theorem eligibility_decision_behavior_witness :
    (∃ db', make_eligibility_decision dbTests 1 1 EligibilityStatus.rejected (some "note")
        = .ok db' ∧
      (db'.findDonor 1).map (fun d => (d.eligibility_status, d.eligibility_notes))
        = some (EligibilityStatus.rejected, some "note") ∧
      donorStateOf db' 1
        = some (if EligibilityStatus.rejected = EligibilityStatus.approved
                then DonorState.donor_onboarded
                else DonorState.eligibility_decision)) ∧
    donorStateOf (runOps (runOps initDB opsFullFlow) [Op.uploadTestReport 1 1]) 1
      = some DonorState.eligibility_decision := by
  constructor
  · exact eligibility_decision_behavior.1 dbTests 1 1 EligibilityStatus.rejected (some "note")
      bankFixture (donorFixture DonorState.tests_pending) rfl rfl rfl (by decide)
  · exact eligibility_decision_behavior.2 opsFullFlow [Op.uploadTestReport 1 1] 1 rfl
